import Mathlib

/-!
Verification development for the EPON-NetworkAgent repository.

Shallow embedding of the three core components the claims talk about:
* `check_ieee_8023_compliance` (src/epon_adk/agents/compliance_agent.py),
  modelled over dynamically-typed Python values so that type errors at
  runtime (`TypeError` from comparing a `str` with a `float`) are visible;
* `parse_telemetry_log` / `_parse_single_record`
  (src/epon_adk/agents/parsing_agent.py);
* `get_latest_netconf_records` (src/epon_adk/db/netconf_log.py);
* `update_cache` / `has_new_data` / `compute_data_hash`
  (src/epon_adk/background/telemetry_cache_worker.py).

Python floats are modelled as rationals (no comparison in the code is close
to a binary-representation tie), Python `None` as `Option`/`Value.VNone`,
and exceptions as `Except`.
-/

set_option maxHeartbeats 1000000
set_option maxRecDepth 8192

namespace Epon

/-- A dynamically-typed Python value, restricted to the types that can reach
the compliance checker's fields: `None`, numbers, booleans and strings. -/
inductive Value where
  | VNone : Value
  | VNum : ℚ → Value
  | VBool : Bool → Value
  | VStr : String → Value
deriving DecidableEq, Repr

/-- The Python exceptions that the embedded code can raise. -/
inductive PyError where
  | typeError : PyError
  | valueError : PyError
deriving DecidableEq, Repr

/-- The `qot` sub-dictionary of an event, as read by
`check_ieee_8023_compliance` via `qot.get(...)` (absent keys and keys bound
to `None` both read back as `VNone`). -/
structure PyQot where
  rx_power_dBm : Value
  snr_dB : Value
  ber_pre_fec : Value
  ber_post_fec : Value
  temperature : Value
deriving DecidableEq, Repr

/-- The `status` sub-dictionary of an event. -/
structure PyStatus where
  qot_degrade : Value
  dsp_adaptation : Value
deriving DecidableEq, Repr

/-- An event dictionary as consumed by `check_ieee_8023_compliance`.
`qot = none` models both an absent `"qot"` key and `"qot": None`; the code
treats the two identically through `event.get("qot", {}) or {}`. -/
structure PyEvent where
  timestamp : Value
  olt_id : Value
  onu_id : Value
  qot : Option PyQot
  status : Option PyStatus
deriving DecidableEq, Repr

/-- The result dictionary returned by `check_ieee_8023_compliance`. -/
structure ComplianceResult where
  timestamp : Value
  olt_id : Value
  onu_id : Value
  likely_layer : String
  severity : String
  probable_causes : List String
  suggested_actions : List String
  notes : List String
  is_abnormal : Bool
  health : String
deriving DecidableEq, Repr

/-- Python's float formatting, kept abstract: `f2` is `f"{x:.2f}"`, `e2` is
`f"{x:.2e}"`, `f1` is `f"{x:.1f}"`, `plain` is `f"{x}"`.  No claim depends
on the text these produce, only on the surrounding literal text. -/
structure Fmt where
  f2 : ℚ → String
  e2 : ℚ → String
  f1 : ℚ → String
  plain : ℚ → String

/-- The mutable local state of `check_ieee_8023_compliance`:
`likely_layer`, `severity`, `causes`, `actions`, `notes`. -/
structure ClsState where
  likely_layer : String
  severity : String
  causes : List String
  actions : List String
  notes : List String
deriving DecidableEq, Repr

/-- Numeric content of a value, for `f`-string formatting (Python formats
`True` as `1`); only reached after a successful numeric comparison. -/
def valueQ : Value → ℚ
  | .VNum x => x
  | .VBool b => if b then 1 else 0
  | _ => 0

/-- Python `v < c` for `c` a float: numbers and booleans compare, strings
and `None` raise `TypeError`. -/
def pyLt : Value → ℚ → Except PyError Bool
  | .VNum x, c => .ok (decide (x < c))
  | .VBool b, c => .ok (decide ((if b then (1 : ℚ) else 0) < c))
  | .VStr _, _ => .error .typeError
  | .VNone, _ => .error .typeError

/-- Python `v > c` for `c` a float. -/
def pyGt : Value → ℚ → Except PyError Bool
  | .VNum x, c => .ok (decide (c < x))
  | .VBool b, c => .ok (decide (c < (if b then (1 : ℚ) else 0)))
  | .VStr _, _ => .error .typeError
  | .VNone, _ => .error .typeError

/-- Rule 1 of `check_ieee_8023_compliance`: the QoT degradation flag
(`if qot_degrade is True`). -/
def rule_qot_degrade (dg : Value) (s : ClsState) : ClsState :=
  if dg = .VBool true then
    { likely_layer := "PHY"
      severity := "critical"
      causes := s.causes ++ ["QoT degradation reported by ONU."]
      actions := s.actions ++
        ["Verify fiber continuity and connectors on the PON link.",
         "Measure optical power with OPM or perform OTDR test.",
         "Inspect splitter ports/splices for excessive loss."]
      notes := s.notes ++
        ["QoT degrade indicates optical signal margins falling outside normal operating envelope for EPON PHY optics."] }
  else s

/-- Rule 2: the Rx power window.  Both `rx < -26.5` and `rx < -28` are
separate `if`s in the source, so both comparisons are evaluated. -/
def rule_rx_power (fmt : Fmt) (rx : Value) (s : ClsState) :
    Except PyError ClsState :=
  if rx = .VNone then .ok s
  else
    match pyLt rx (-26.5) with
    | .error err => .error err
    | .ok b1 =>
      let s1 :=
        if b1 then
          { likely_layer := if s.likely_layer = "Unknown" then "PHY" else s.likely_layer
            severity := if s.severity = "info" then "warning" else s.severity
            causes := s.causes ++
              ["Low received optical power (" ++ fmt.f2 (valueQ rx) ++ " dBm)."]
            actions := s.actions ++ ["Check passive plant for excessive insertion loss."]
            notes := s.notes ++
              ["Receiver input is near sensitivity limit for common EPON ONU optics."] }
        else s
      match pyLt rx (-28) with
      | .error err => .error err
      | .ok b2 =>
        if b2 then
          .ok { s1 with
                likely_layer := if s1.likely_layer = "Unknown" then "PHY" else s1.likely_layer
                severity := "critical"
                causes := s1.causes ++ ["Received optical power beyond sensitivity threshold."]
                actions := s1.actions ++ ["Urgently inspect fiber drop and connectors."] }
        else .ok s1

/-- Rule 3: pre-FEC BER tiers (an `if`/`elif`/`elif` ladder, so later
comparisons are only evaluated when the earlier ones are false). -/
def rule_ber (fmt : Fmt) (bp : Value) (s : ClsState) : Except PyError ClsState :=
  if bp = .VNone then .ok s
  else
    match pyGt bp 1e-3 with
    | .error err => .error err
    | .ok b1 =>
      if b1 then
        .ok { likely_layer := "PHY"
              severity := "critical"
              causes := s.causes ++
                ["Pre-FEC BER " ++ fmt.e2 (valueQ bp) ++ " extremely high."]
              actions := s.actions ++
                ["Perform optical path inspection immediately.",
                 "Verify laser launch conditions and ONU optics health."]
              notes := s.notes }
      else
        match pyGt bp 1e-4 with
        | .error err => .error err
        | .ok b2 =>
          if b2 then
            .ok { likely_layer := if s.likely_layer = "Unknown" then "PHY" else s.likely_layer
                  severity := if s.severity = "info" then "warning" else s.severity
                  causes := s.causes ++
                    ["Pre-FEC BER " ++ fmt.e2 (valueQ bp) ++ " above nominal."]
                  actions := s.actions ++ ["Check clock recovery / dispersion on long-reach PON."]
                  notes := s.notes }
          else
            match pyGt bp 1e-5 with
            | .error err => .error err
            | .ok b3 =>
              if b3 then
                .ok { likely_layer := if s.likely_layer = "Unknown" then "PHY" else s.likely_layer
                      severity := if s.severity = "info" then "warning" else s.severity
                      causes := s.causes ++ ["Pre-FEC BER slightly elevated."]
                      actions := s.actions ++ ["Monitor BER trend over time."]
                      notes := s.notes }
              else .ok s

/-- Rule 4: SNR tiers.  Note that the marginal branch sets
`likely_layer = "PHY"` unconditionally. -/
def rule_snr (fmt : Fmt) (snr : Value) (s : ClsState) : Except PyError ClsState :=
  if snr = .VNone then .ok s
  else
    match pyLt snr 12 with
    | .error err => .error err
    | .ok b1 =>
      if b1 then
        .ok { likely_layer := "PHY"
              severity := "critical"
              causes := s.causes ++ ["SNR critically low (" ++ fmt.f1 (valueQ snr) ++ " dB)."]
              actions := s.actions ++
                ["Investigate reflections, macro-bends, or noisy transmitters."]
              notes := s.notes }
      else
        match pyLt snr 15 with
        | .error err => .error err
        | .ok b2 =>
          if b2 then
            .ok { likely_layer := "PHY"
                  severity := if s.severity = "info" then "warning" else s.severity
                  causes := s.causes ++ ["SNR marginal (" ++ fmt.f1 (valueQ snr) ++ " dB)."]
                  actions := s.actions ++ ["Inspect connectors for contamination or micro-bends."]
                  notes := s.notes }
          else .ok s

/-- Rule 5: high temperature (`if temp is not None and temp > 75`). -/
def rule_temperature (fmt : Fmt) (t : Value) (s : ClsState) :
    Except PyError ClsState :=
  if t = .VNone then .ok s
  else
    match pyGt t 75 with
    | .error err => .error err
    | .ok b =>
      if b then
        .ok { likely_layer := "PHY"
              severity := if s.severity = "info" then "warning" else s.severity
              causes := s.causes ++ ["High ONU temperature (" ++ fmt.plain (valueQ t) ++ "°C)."]
              actions := s.actions ++ ["Check ONU ambient conditions and ventilation."]
              notes := s.notes }
      else .ok s

/-- ASCII model of Python's `str.lower()` (every string reaching it in this
development is ASCII). -/
def strLower (s : String) : String := ⟨s.data.map Char.toLower⟩

/-- Rule 6: DSP adaptation keywords.  `dsp_state_norm` is `None` unless the
field is a string, and `None in [...]` is false. -/
def rule_dsp (dsp : Value) (s : ClsState) : ClsState :=
  let dspNorm : Option String :=
    match dsp with
    | .VStr t => some (strLower t)
    | _ => none
  if dspNorm = some "slow" ∨ dspNorm = some "degraded" ∨ dspNorm = some "tracking" then
    { likely_layer := "PHY"
      severity := if s.severity = "info" then "warning" else s.severity
      causes := s.causes ++ ["DSP adaptation struggling (slow/degraded)."]
      actions := s.actions ++ ["Check for unstable optical power or high dispersion."]
      notes := s.notes ++ ["DSP struggling often correlates with low SNR or fluctuating power."] }
  else s

/-- Rule 7 (the no-findings fallback), the `is_abnormal` flag, the health
derivation and assembly of the returned dictionary. -/
def finalizeResult (e : PyEvent) (s : ClsState) : ComplianceResult :=
  let s1 :=
    if s.causes = [] then
      { s with causes := s.causes ++ ["No abnormal conditions detected."]
               actions := s.actions ++ ["Continue monitoring."]
               notes := s.notes ++
                 ["Event appears to be within normal IEEE 802.3 EPON operating range."] }
    else
      { s with actions :=
          if s.severity = "info" ∨ s.severity = "warning" then
            s.actions ++ ["Continue monitoring link quality trends."]
          else s.actions }
  let isAbn : Bool := !s.causes.isEmpty
  { timestamp := e.timestamp
    olt_id := e.olt_id
    onu_id := e.onu_id
    likely_layer := s1.likely_layer
    severity := s1.severity
    probable_causes := s1.causes
    suggested_actions := s1.actions
    notes := s1.notes
    is_abnormal := isAbn
    health :=
      if isAbn = false then "normal"
      else if s.severity = "critical" then "major_issue"
      else "minor_issue" }

/-- Empty `qot` dictionary (every `get` returns `None`). -/
def defaultQot : PyQot := ⟨.VNone, .VNone, .VNone, .VNone, .VNone⟩

/-- Empty `status` dictionary. -/
def defaultStatus : PyStatus := ⟨.VNone, .VNone⟩

/-- `check_ieee_8023_compliance` from compliance_agent.py: the ordered rule
ladder over one event, raising `TypeError` exactly where Python would. -/
def check_ieee_8023_compliance (fmt : Fmt) (event : PyEvent) :
    Except PyError ComplianceResult :=
  let qot := event.qot.getD defaultQot
  let status := event.status.getD defaultStatus
  let s0 : ClsState := ⟨"Unknown", "info", [], [], []⟩
  let s1 := rule_qot_degrade status.qot_degrade s0
  match rule_rx_power fmt qot.rx_power_dBm s1 with
  | .error err => .error err
  | .ok s2 =>
    match rule_ber fmt qot.ber_pre_fec s2 with
    | .error err => .error err
    | .ok s3 =>
      match rule_snr fmt qot.snr_dB s3 with
      | .error err => .error err
      | .ok s4 =>
        match rule_temperature fmt qot.temperature s4 with
        | .error err => .error err
        | .ok s5 =>
          let s6 := rule_dsp status.dsp_adaptation s5
          .ok (finalizeResult event s6)

/-- A trivial concrete formatter, used where a theorem quantified over the
abstract float formatter is instantiated at a concrete input. -/
def fmtTrivial : Fmt := ⟨fun _ => "", fun _ => "", fun _ => "", fun _ => ""⟩

/-- Value of a nullable float field. -/
def oq : Option ℚ → Value
  | none => .VNone
  | some x => .VNum x

/-- Value of a nullable boolean field. -/
def ob : Option Bool → Value
  | none => .VNone
  | some b => .VBool b

/-- Value of a nullable string field. -/
def ostr : Option String → Value
  | none => .VNone
  | some t => .VStr t

/-- A well-typed event, shaped as `_parse_single_record` produces them. -/
def mkEvent (rx snr bp bps t : Option ℚ) (dg : Option Bool)
    (dsp : Option String) : PyEvent :=
  { timestamp := .VNone
    olt_id := .VNone
    onu_id := .VNone
    qot := some ⟨oq rx, oq snr, oq bp, oq bps, oq t⟩
    status := some ⟨ob dg, ostr dsp⟩ }

/-- True unless the value is a Python `str`. -/
def notStr : Value → Bool
  | .VStr _ => false
  | _ => true

/-- The four `qot` fields that `check_ieee_8023_compliance` actually compares
against thresholds hold no string (`ber_post_fec` is read but never
compared, so its type never matters). -/
def comparedFieldsNotStr (e : PyEvent) : Bool :=
  let q := e.qot.getD defaultQot
  notStr q.rx_power_dBm && notStr q.ber_pre_fec && notStr q.snr_dB &&
    notStr q.temperature

lemma rule_rx_power_ok (fmt : Fmt) (rx : Value) (s : ClsState)
    (h : notStr rx = true) : ∃ s', rule_rx_power fmt rx s = .ok s' := by
  cases rx with
  | VNone => exact ⟨s, rfl⟩
  | VStr t => simp [notStr] at h
  | VNum x =>
    by_cases h1 : x < (-26.5 : ℚ) <;> by_cases h2 : x < (-28 : ℚ) <;>
      simp [rule_rx_power, pyLt, h1, h2]
  | VBool b => cases b <;> norm_num [rule_rx_power, pyLt]

lemma rule_ber_ok (fmt : Fmt) (bp : Value) (s : ClsState)
    (h : notStr bp = true) : ∃ s', rule_ber fmt bp s = .ok s' := by
  cases bp with
  | VNone => exact ⟨s, rfl⟩
  | VStr t => simp [notStr] at h
  | VNum x =>
    by_cases h1 : (1e-3 : ℚ) < x <;> by_cases h2 : (1e-4 : ℚ) < x <;>
      by_cases h3 : (1e-5 : ℚ) < x <;> simp [rule_ber, pyGt, h1, h2, h3]
  | VBool b => cases b <;> (norm_num [rule_ber, pyGt]; try simp)

lemma rule_snr_ok (fmt : Fmt) (snr : Value) (s : ClsState)
    (h : notStr snr = true) : ∃ s', rule_snr fmt snr s = .ok s' := by
  cases snr with
  | VNone => exact ⟨s, rfl⟩
  | VStr t => simp [notStr] at h
  | VNum x =>
    by_cases h1 : x < (12 : ℚ) <;> by_cases h2 : x < (15 : ℚ) <;>
      simp [rule_snr, pyLt, h1, h2]
  | VBool b => cases b <;> (norm_num [rule_snr, pyLt]; try simp)

lemma rule_temperature_ok (fmt : Fmt) (t : Value) (s : ClsState)
    (h : notStr t = true) : ∃ s', rule_temperature fmt t s = .ok s' := by
  cases t with
  | VNone => exact ⟨s, rfl⟩
  | VStr u => simp [notStr] at h
  | VNum x => by_cases h1 : (75 : ℚ) < x <;> simp [rule_temperature, pyGt, h1]
  | VBool b => cases b <;> norm_num [rule_temperature, pyGt]

lemma check_ok_of_comparedFieldsNotStr (fmt : Fmt) (e : PyEvent)
    (h : comparedFieldsNotStr e = true) :
    ∃ r, check_ieee_8023_compliance fmt e = .ok r := by
  simp only [comparedFieldsNotStr, Bool.and_eq_true] at h
  obtain ⟨⟨⟨hrx, hbp⟩, hsnr⟩, ht⟩ := h
  unfold check_ieee_8023_compliance
  obtain ⟨s2, h2⟩ := rule_rx_power_ok fmt (e.qot.getD defaultQot).rx_power_dBm
    (rule_qot_degrade (e.status.getD defaultStatus).qot_degrade
      ⟨"Unknown", "info", [], [], []⟩) hrx
  simp only [h2]
  obtain ⟨s3, h3⟩ := rule_ber_ok fmt (e.qot.getD defaultQot).ber_pre_fec s2 hbp
  simp only [h3]
  obtain ⟨s4, h4⟩ := rule_snr_ok fmt (e.qot.getD defaultQot).snr_dB s3 hsnr
  simp only [h4]
  obtain ⟨s5, h5⟩ := rule_temperature_ok fmt (e.qot.getD defaultQot).temperature s4 ht
  simp only [h5]
  exact ⟨_, rfl⟩

/-- C1 (counterexample): on an event whose `qot.rx_power_dBm` is the string
`"bad"`, `check_ieee_8023_compliance` does not return a result: the Python
comparison `rx < -26.5` raises `TypeError`, so the field is not treated as
null/absent. -/
theorem c1_counterexample :
    check_ieee_8023_compliance fmtTrivial
      { timestamp := .VNone
        olt_id := .VNone
        onu_id := .VStr "1"
        qot := some
          { rx_power_dBm := .VStr "bad"
            snr_dB := .VNone
            ber_pre_fec := .VNone
            ber_post_fec := .VNone
            temperature := .VNone }
        status := none } = .error .typeError := rfl

/-- C1 (amended): `check_ieee_8023_compliance` returns a `ComplianceResult`
without raising whenever none of the four compared numeric `qot` fields
(`rx_power_dBm`, `ber_pre_fec`, `snr_dB`, `temperature`) holds a string;
in particular `qot`/`status` being null and status fields of arbitrary type
are handled.  A string in a compared numeric field raises `TypeError`
instead of being treated as null. -/
theorem c1_classify_total_unless_string_in_numeric_field (fmt : Fmt)
    (e : PyEvent) (h : comparedFieldsNotStr e = true) :
    ∃ r, check_ieee_8023_compliance fmt e = .ok r :=
  check_ok_of_comparedFieldsNotStr fmt e h

/-- C1 witness: the amended theorem applied to a concrete event whose status
fields have unexpected types (a string degrade flag, a numeric dsp state)
and whose numeric fields include a boolean. -/
theorem c1_witness :
    ∃ r, check_ieee_8023_compliance fmtTrivial
      { timestamp := .VStr "2025-11-24T10:00:00Z"
        olt_id := .VNone
        onu_id := .VStr "2"
        qot := some
          { rx_power_dBm := .VBool true
            snr_dB := .VNum 22
            ber_pre_fec := .VNone
            ber_post_fec := .VStr "junk"
            temperature := .VNone }
        status := some ⟨.VStr "true", .VNum 3⟩ } = .ok r :=
  c1_classify_total_unless_string_in_numeric_field fmtTrivial _ (by decide)

/-- Invariant maintained by every rule of the classifier: the layer is
either `"Unknown"` or `"PHY"`, and it is `"PHY"` exactly when some cause
has been recorded. -/
def ClsInv (s : ClsState) : Prop :=
  (s.likely_layer = "Unknown" ∨ s.likely_layer = "PHY") ∧
    (s.likely_layer = "PHY" ↔ s.causes ≠ [])

lemma layer_upd {l : String} (h : l = "Unknown" ∨ l = "PHY") :
    (if l = "Unknown" then "PHY" else l) = "PHY" := by
  rcases h with h | h <;> simp [h]

lemma clsInv_append (s : ClsState) (hI : ClsInv s) (c a n : List String)
    (hc : c ≠ []) :
    ClsInv ⟨if s.likely_layer = "Unknown" then "PHY" else s.likely_layer,
            if s.severity = "info" then "warning" else s.severity,
            s.causes ++ c, s.actions ++ a, s.notes ++ n⟩ := by
  refine ⟨Or.inr (layer_upd hI.1), ?_⟩
  simp [layer_upd hI.1, hc]

lemma rule_qot_degrade_inv (dg : Value) (s : ClsState) (hI : ClsInv s) :
    ClsInv (rule_qot_degrade dg s) := by
  unfold rule_qot_degrade
  split
  · exact ⟨Or.inr rfl, by simp⟩
  · exact hI

lemma rule_rx_power_inv (fmt : Fmt) (rx : Value) (s s' : ClsState)
    (h : rule_rx_power fmt rx s = .ok s') (hI : ClsInv s) : ClsInv s' := by
  cases rx with
  | VNone => simp only [rule_rx_power] at h; simp at h; rwa [← h]
  | VStr t => simp [rule_rx_power, pyLt] at h
  | VNum x =>
    by_cases h1 : x < (-26.5 : ℚ) <;> by_cases h2 : x < (-28 : ℚ) <;>
        simp [rule_rx_power, pyLt, h1, h2] at h <;> rw [← h]
    · exact ⟨Or.inr (layer_upd (Or.inr (layer_upd hI.1))), by simp [layer_upd (Or.inr (layer_upd hI.1))]⟩
    · exact clsInv_append s hI _ _ _ (by simp)
    · exact ⟨Or.inr (layer_upd hI.1), by simp [layer_upd hI.1]⟩
    · exact hI
  | VBool b =>
    by_cases h1 : ((if b = true then (1 : ℚ) else 0)) < -26.5 <;>
        by_cases h2 : ((if b = true then (1 : ℚ) else 0)) < -28 <;>
        simp [rule_rx_power, pyLt, h1, h2] at h <;> rw [← h]
    · exact ⟨Or.inr (layer_upd (Or.inr (layer_upd hI.1))), by simp [layer_upd (Or.inr (layer_upd hI.1))]⟩
    · exact clsInv_append s hI _ _ _ (by simp)
    · exact ⟨Or.inr (layer_upd hI.1), by simp [layer_upd hI.1]⟩
    · exact hI

lemma rule_ber_inv (fmt : Fmt) (bp : Value) (s s' : ClsState)
    (h : rule_ber fmt bp s = .ok s') (hI : ClsInv s) : ClsInv s' := by
  cases bp with
  | VNone => simp only [rule_ber] at h; simp at h; rwa [← h]
  | VStr t => simp [rule_ber, pyGt] at h
  | VNum x =>
    by_cases h1 : (1e-3 : ℚ) < x <;> by_cases h2 : (1e-4 : ℚ) < x <;>
        by_cases h3 : (1e-5 : ℚ) < x <;>
        simp [rule_ber, pyGt, h1, h2, h3] at h <;> rw [← h]
    all_goals
      first
      | exact ⟨Or.inr rfl, by simp⟩
      | exact clsInv_append s hI _ _ _ (by simp)
      | exact ⟨Or.inr (layer_upd hI.1), by simp [layer_upd hI.1]⟩
      | exact hI
  | VBool b =>
    by_cases h1 : (1e-3 : ℚ) < (if b = true then (1 : ℚ) else 0) <;>
        by_cases h2 : (1e-4 : ℚ) < (if b = true then (1 : ℚ) else 0) <;>
        by_cases h3 : (1e-5 : ℚ) < (if b = true then (1 : ℚ) else 0) <;>
        simp [rule_ber, pyGt, h1, h2, h3] at h <;> rw [← h]
    all_goals
      first
      | exact ⟨Or.inr rfl, by simp⟩
      | exact clsInv_append s hI _ _ _ (by simp)
      | exact ⟨Or.inr (layer_upd hI.1), by simp [layer_upd hI.1]⟩
      | exact hI

lemma rule_snr_inv (fmt : Fmt) (snr : Value) (s s' : ClsState)
    (h : rule_snr fmt snr s = .ok s') (hI : ClsInv s) : ClsInv s' := by
  cases snr with
  | VNone => simp only [rule_snr] at h; simp at h; rwa [← h]
  | VStr t => simp [rule_snr, pyLt] at h
  | VNum x =>
    by_cases h1 : x < (12 : ℚ) <;> by_cases h2 : x < (15 : ℚ) <;>
        simp [rule_snr, pyLt, h1, h2] at h <;> rw [← h]
    all_goals
      first
      | exact ⟨Or.inr rfl, by simp⟩
      | exact hI
  | VBool b =>
    by_cases h1 : (if b = true then (1 : ℚ) else 0) < 12 <;>
        by_cases h2 : (if b = true then (1 : ℚ) else 0) < 15 <;>
        simp [rule_snr, pyLt, h1, h2] at h <;> rw [← h]
    all_goals
      first
      | exact ⟨Or.inr rfl, by simp⟩
      | exact hI

lemma rule_temperature_inv (fmt : Fmt) (t : Value) (s s' : ClsState)
    (h : rule_temperature fmt t s = .ok s') (hI : ClsInv s) : ClsInv s' := by
  cases t with
  | VNone => simp only [rule_temperature] at h; simp at h; rwa [← h]
  | VStr u => simp [rule_temperature, pyGt] at h
  | VNum x =>
    by_cases h1 : (75 : ℚ) < x <;>
        simp [rule_temperature, pyGt, h1] at h <;> rw [← h]
    · exact ⟨Or.inr rfl, by simp⟩
    · exact hI
  | VBool b =>
    by_cases h1 : (75 : ℚ) < (if b = true then (1 : ℚ) else 0) <;>
        simp [rule_temperature, pyGt, h1] at h <;> rw [← h]
    · exact ⟨Or.inr rfl, by simp⟩
    · exact hI

lemma rule_dsp_inv (dsp : Value) (s : ClsState) (hI : ClsInv s) :
    ClsInv (rule_dsp dsp s) := by
  cases dsp with
  | VStr t =>
    simp only [rule_dsp]
    split
    · exact ⟨Or.inr rfl, by simp⟩
    · exact hI
  | VNone => simpa [rule_dsp] using hI
  | VNum x => simpa [rule_dsp] using hI
  | VBool b => simpa [rule_dsp] using hI

lemma finalize_inv (e : PyEvent) (s : ClsState) (hI : ClsInv s) :
    ((finalizeResult e s).likely_layer = "Unknown" ∨
      (finalizeResult e s).likely_layer = "PHY") ∧
    ((finalizeResult e s).likely_layer = "PHY" ↔
      (finalizeResult e s).is_abnormal = true) := by
  obtain ⟨hA, hB⟩ := hI
  by_cases hc : s.causes = []
  · have hL : s.likely_layer = "Unknown" := by
      rcases hA with h | h
      · exact h
      · exact absurd (hB.mp h) (by simp [hc])
    constructor
    · left
      simp [finalizeResult, hL, hc]
    · simp [finalizeResult, hL, hc]
  · have hL : s.likely_layer = "PHY" := hB.mpr hc
    constructor
    · right
      simp [finalizeResult, hL, hc]
    · simp [finalizeResult, hL, hc, List.isEmpty_iff]

/-- C10: on every event on which `check_ieee_8023_compliance` returns, the
`likely_layer` of the result is `"Unknown"` or `"PHY"`, and it is `"PHY"`
exactly when `is_abnormal` is true (i.e. when some rule recorded a cause). -/
theorem c10_layer_abnormal_invariant (fmt : Fmt) (e : PyEvent)
    (r : ComplianceResult) (h : check_ieee_8023_compliance fmt e = .ok r) :
    (r.likely_layer = "Unknown" ∨ r.likely_layer = "PHY") ∧
    (r.likely_layer = "PHY" ↔ r.is_abnormal = true) := by
  unfold check_ieee_8023_compliance at h
  have hI0 : ClsInv (rule_qot_degrade (e.status.getD defaultStatus).qot_degrade
      ⟨"Unknown", "info", [], [], []⟩) :=
    rule_qot_degrade_inv _ _ ⟨Or.inl rfl, by simp⟩
  rcases hm2 : rule_rx_power fmt (e.qot.getD defaultQot).rx_power_dBm
      (rule_qot_degrade (e.status.getD defaultStatus).qot_degrade
        ⟨"Unknown", "info", [], [], []⟩) with err | s2 <;>
    simp only [hm2] at h
  · cases h
  rcases hm3 : rule_ber fmt (e.qot.getD defaultQot).ber_pre_fec s2 with err | s3 <;>
    simp only [hm3] at h
  · cases h
  rcases hm4 : rule_snr fmt (e.qot.getD defaultQot).snr_dB s3 with err | s4 <;>
    simp only [hm4] at h
  · cases h
  rcases hm5 : rule_temperature fmt (e.qot.getD defaultQot).temperature s4 with err | s5 <;>
    simp only [hm5] at h
  · cases h
  simp only [Except.ok.injEq] at h
  rw [← h]
  exact finalize_inv e _ (rule_dsp_inv _ _
    (rule_temperature_inv fmt _ _ _ hm5
      (rule_snr_inv fmt _ _ _ hm4
        (rule_ber_inv fmt _ _ _ hm3
          (rule_rx_power_inv fmt _ _ _ hm2 hI0)))))

/-- The result of classifying a fully-null event (only identifiers set),
used as the concrete instance for the C10 witness. -/
def normalResult : ComplianceResult :=
  { timestamp := .VNone
    olt_id := .VNone
    onu_id := .VNone
    likely_layer := "Unknown"
    severity := "info"
    probable_causes := ["No abnormal conditions detected."]
    suggested_actions := ["Continue monitoring."]
    notes := ["Event appears to be within normal IEEE 802.3 EPON operating range."]
    is_abnormal := false
    health := "normal" }

/-- C10 witness: the invariant theorem applied to the all-null event. -/
theorem c10_witness :
    (normalResult.likely_layer = "Unknown" ∨ normalResult.likely_layer = "PHY") ∧
    (normalResult.likely_layer = "PHY" ↔ normalResult.is_abnormal = true) :=
  c10_layer_abnormal_invariant fmtTrivial
    (mkEvent none none none none none none none) normalResult rfl

/-- Rank of a severity string in the escalation order
info < warning < critical (any other string ranks as info). -/
def sevRank (v : String) : ℕ :=
  if v = "critical" then 2 else if v = "warning" then 1 else 0

/-- Canonical severity string of a rank. -/
def sevOfRank (n : ℕ) : String :=
  if n = 0 then "info" else if n = 1 then "warning" else "critical"

/-- Severity contribution of rule 1 (degrade flag). -/
def levelDegrade (dg : Option Bool) : ℕ := if dg = some true then 2 else 0

/-- Severity contribution of rule 2 (Rx power window). -/
def levelRx : Option ℚ → ℕ
  | none => 0
  | some x => if x < -28 then 2 else if x < -26.5 then 1 else 0

/-- Severity contribution of rule 3 (pre-FEC BER tiers). -/
def levelBer : Option ℚ → ℕ
  | none => 0
  | some b => if 1e-3 < b then 2 else if 1e-4 < b then 1 else if 1e-5 < b then 1 else 0

/-- Severity contribution of rule 4 (SNR tiers). -/
def levelSnr : Option ℚ → ℕ
  | none => 0
  | some x => if x < 12 then 2 else if x < 15 then 1 else 0

/-- Severity contribution of rule 5 (temperature). -/
def levelTemp : Option ℚ → ℕ
  | none => 0
  | some x => if 75 < x then 1 else 0

/-- Severity contribution of rule 6 (DSP adaptation keywords). -/
def levelDsp : Option String → ℕ
  | none => 0
  | some t =>
    if strLower t = "slow" ∨ strLower t = "degraded" ∨ strLower t = "tracking"
    then 1 else 0

/-- Total severity rank computed by the rule ladder on a well-typed event:
the maximum of the individual rule contributions. -/
def clsSeverityNat (dg : Option Bool) (rx bp snr t : Option ℚ)
    (dsp : Option String) : ℕ :=
  (((((levelDegrade dg).max (levelRx rx)).max (levelBer bp)).max
    (levelSnr snr)).max (levelTemp t)).max (levelDsp dsp)

/-- Severity rank of a classification outcome (errors rank 0). -/
def sevOfE : Except PyError ComplianceResult → ℕ
  | .ok r => sevRank r.severity
  | .error _ => 0

lemma sevRank_le_two (v : String) : sevRank v ≤ 2 := by
  unfold sevRank; split_ifs <;> omega

lemma sevRank_escalate (v : String) :
    sevRank v ≤ sevRank (if v = "info" then "warning" else v) := by
  by_cases h : v = "info" <;> simp [h, sevRank]

lemma sevRank_critical (v : String) :
    sevRank v ≤ sevRank "critical" := by
  simpa [sevRank] using sevRank_le_two v

lemma sevOfRank_escalate1 (n : ℕ) (hn : n ≤ 2) :
    (if sevOfRank n = "info" then "warning" else sevOfRank n) =
      sevOfRank (n.max 1) := by
  interval_cases n <;> simp [sevOfRank]

lemma sevOfRank_maxtwo (n : ℕ) (hn : n ≤ 2) :
    sevOfRank (n.max 2) = "critical" := by
  interval_cases n <;> simp [sevOfRank]

lemma sevRank_sevOfRank (n : ℕ) (hn : n ≤ 2) : sevRank (sevOfRank n) = n := by
  interval_cases n <;> simp [sevRank, sevOfRank]

lemma levelDegrade_le (dg : Option Bool) : levelDegrade dg ≤ 2 := by
  unfold levelDegrade; split_ifs <;> omega

lemma levelRx_le (rx : Option ℚ) : levelRx rx ≤ 2 := by
  cases rx <;> simp only [levelRx] <;> first | omega | (split_ifs <;> omega)

lemma levelBer_le (bp : Option ℚ) : levelBer bp ≤ 2 := by
  cases bp <;> simp only [levelBer] <;> first | omega | (split_ifs <;> omega)

lemma levelSnr_le (v : Option ℚ) : levelSnr v ≤ 2 := by
  cases v <;> simp only [levelSnr] <;> first | omega | (split_ifs <;> omega)

lemma levelTemp_le (v : Option ℚ) : levelTemp v ≤ 2 := by
  cases v <;> simp only [levelTemp] <;> first | omega | (split_ifs <;> omega)

lemma levelDsp_le (v : Option String) : levelDsp v ≤ 2 := by
  cases v <;> simp only [levelDsp] <;> first | omega | (split_ifs <;> omega)

lemma levelRx_anti (x x' : ℚ) (h : x' ≤ x) :
    levelRx (some x) ≤ levelRx (some x') := by
  simp only [levelRx]
  split_ifs <;> first | omega | (exfalso; linarith)

lemma levelBer_mono (b b' : ℚ) (h : b ≤ b') :
    levelBer (some b) ≤ levelBer (some b') := by
  simp only [levelBer]
  split_ifs <;> first | omega | (exfalso; linarith)

lemma levelSnr_anti (x x' : ℚ) (h : x' ≤ x) :
    levelSnr (some x) ≤ levelSnr (some x') := by
  simp only [levelSnr]
  split_ifs <;> first | omega | (exfalso; linarith)

lemma levelTemp_mono (x x' : ℚ) (h : x ≤ x') :
    levelTemp (some x) ≤ levelTemp (some x') := by
  simp only [levelTemp]
  split_ifs <;> first | omega | (exfalso; linarith)

lemma levelDegrade_top (dg : Option Bool) :
    levelDegrade dg ≤ levelDegrade (some true) := by
  simpa [levelDegrade] using levelDegrade_le dg

lemma levelDsp_top (v : Option String) (k : String)
    (hk : k = "slow" ∨ k = "degraded" ∨ k = "tracking") :
    levelDsp v ≤ levelDsp (some k) := by
  have h1 : levelDsp (some k) = 1 := by
    rcases hk with h | h | h <;> subst h <;> simp [levelDsp, strLower]
  rw [h1]
  cases v <;> simp only [levelDsp] <;> first | omega | (split_ifs <;> omega)

lemma rule_qot_degrade_mono (dg : Value) (s : ClsState) :
    sevRank s.severity ≤ sevRank (rule_qot_degrade dg s).severity := by
  unfold rule_qot_degrade
  split
  · exact sevRank_critical s.severity
  · exact le_refl _

lemma rule_rx_power_mono (fmt : Fmt) (rx : Value) (s s' : ClsState)
    (h : rule_rx_power fmt rx s = .ok s') :
    sevRank s.severity ≤ sevRank s'.severity := by
  cases rx with
  | VNone =>
    simp only [rule_rx_power] at h
    simp at h
    rw [← h]
  | VStr t => simp [rule_rx_power, pyLt] at h
  | VNum x =>
    by_cases h1 : x < (-26.5 : ℚ) <;> by_cases h2 : x < (-28 : ℚ) <;>
        simp [rule_rx_power, pyLt, h1, h2] at h <;> rw [← h]
    · exact sevRank_critical s.severity
    · exact sevRank_escalate s.severity
    · exact sevRank_critical s.severity
  | VBool b =>
    by_cases h1 : ((if b = true then (1 : ℚ) else 0)) < -26.5 <;>
        by_cases h2 : ((if b = true then (1 : ℚ) else 0)) < -28 <;>
        simp [rule_rx_power, pyLt, h1, h2] at h <;> rw [← h]
    · exact sevRank_critical s.severity
    · exact sevRank_escalate s.severity
    · exact sevRank_critical s.severity

lemma rule_ber_mono (fmt : Fmt) (bp : Value) (s s' : ClsState)
    (h : rule_ber fmt bp s = .ok s') :
    sevRank s.severity ≤ sevRank s'.severity := by
  cases bp with
  | VNone =>
    simp only [rule_ber] at h
    simp at h
    rw [← h]
  | VStr t => simp [rule_ber, pyGt] at h
  | VNum x =>
    by_cases h1 : (1e-3 : ℚ) < x <;> by_cases h2 : (1e-4 : ℚ) < x <;>
        by_cases h3 : (1e-5 : ℚ) < x <;>
        simp [rule_ber, pyGt, h1, h2, h3] at h <;> rw [← h]
    all_goals
      first
      | exact sevRank_critical s.severity
      | exact sevRank_escalate s.severity
  | VBool b =>
    by_cases h1 : (1e-3 : ℚ) < (if b = true then (1 : ℚ) else 0) <;>
        by_cases h2 : (1e-4 : ℚ) < (if b = true then (1 : ℚ) else 0) <;>
        by_cases h3 : (1e-5 : ℚ) < (if b = true then (1 : ℚ) else 0) <;>
        simp [rule_ber, pyGt, h1, h2, h3] at h <;> rw [← h]
    all_goals
      first
      | exact sevRank_critical s.severity
      | exact sevRank_escalate s.severity

lemma rule_snr_mono (fmt : Fmt) (v : Value) (s s' : ClsState)
    (h : rule_snr fmt v s = .ok s') :
    sevRank s.severity ≤ sevRank s'.severity := by
  cases v with
  | VNone =>
    simp only [rule_snr] at h
    simp at h
    rw [← h]
  | VStr t => simp [rule_snr, pyLt] at h
  | VNum x =>
    by_cases h1 : x < (12 : ℚ) <;> by_cases h2 : x < (15 : ℚ) <;>
        simp [rule_snr, pyLt, h1, h2] at h <;> rw [← h]
    all_goals
      first
      | exact sevRank_critical s.severity
      | exact sevRank_escalate s.severity
  | VBool b =>
    by_cases h1 : (if b = true then (1 : ℚ) else 0) < 12 <;>
        by_cases h2 : (if b = true then (1 : ℚ) else 0) < 15 <;>
        simp [rule_snr, pyLt, h1, h2] at h <;> rw [← h]
    all_goals
      first
      | exact sevRank_critical s.severity
      | exact sevRank_escalate s.severity

lemma rule_temperature_mono (fmt : Fmt) (v : Value) (s s' : ClsState)
    (h : rule_temperature fmt v s = .ok s') :
    sevRank s.severity ≤ sevRank s'.severity := by
  cases v with
  | VNone =>
    simp only [rule_temperature] at h
    simp at h
    rw [← h]
  | VStr t => simp [rule_temperature, pyGt] at h
  | VNum x =>
    by_cases h1 : (75 : ℚ) < x <;>
        simp [rule_temperature, pyGt, h1] at h <;> rw [← h]
    · exact sevRank_escalate s.severity
  | VBool b =>
    by_cases h1 : (75 : ℚ) < (if b = true then (1 : ℚ) else 0) <;>
        simp [rule_temperature, pyGt, h1] at h <;> rw [← h]
    · exact sevRank_escalate s.severity

lemma rule_dsp_mono (dsp : Value) (s : ClsState) :
    sevRank s.severity ≤ sevRank (rule_dsp dsp s).severity := by
  cases dsp with
  | VStr t =>
    simp only [rule_dsp]
    split
    · exact sevRank_escalate s.severity
    · exact le_refl _
  | VNone => simp [rule_dsp]
  | VNum x => simp [rule_dsp]
  | VBool b => simp [rule_dsp]

lemma finalize_severity (e : PyEvent) (s : ClsState) :
    (finalizeResult e s).severity = s.severity := by
  by_cases hc : s.causes = [] <;> simp [finalizeResult, hc]

lemma rule_qot_degrade_mk (dg : Option Bool) (s : ClsState) (n : ℕ)
    (hs : s.severity = sevOfRank n) (hn : n ≤ 2) :
    (rule_qot_degrade (ob dg) s).severity =
      sevOfRank (n.max (levelDegrade dg)) := by
  cases dg with
  | none => simp [rule_qot_degrade, ob, levelDegrade, hs]
  | some b =>
    cases b
    · simp [rule_qot_degrade, ob, levelDegrade, hs]
    · simp only [rule_qot_degrade, ob, levelDegrade, if_pos rfl]
      simp [sevOfRank_maxtwo n hn]

lemma rule_rx_power_mk (fmt : Fmt) (rx : Option ℚ) (s : ClsState) (n : ℕ)
    (hs : s.severity = sevOfRank n) (hn : n ≤ 2) :
    ∃ s', rule_rx_power fmt (oq rx) s = .ok s' ∧
      s'.severity = sevOfRank (n.max (levelRx rx)) := by
  cases rx with
  | none =>
    refine ⟨s, rfl, ?_⟩
    simp [levelRx, hs]
  | some x =>
    by_cases h1 : x < (-26.5 : ℚ) <;> by_cases h2 : x < (-28 : ℚ)
    · refine ⟨_, by simp [rule_rx_power, pyLt, oq, h1, h2]; try rfl, ?_⟩
      simp [levelRx, h1, h2, sevOfRank_maxtwo n hn]
    · refine ⟨_, by simp [rule_rx_power, pyLt, oq, h1, h2]; try rfl, ?_⟩
      simp only [levelRx, h1, h2, if_true, if_false, hs]
      exact sevOfRank_escalate1 n hn
    · refine ⟨_, by simp [rule_rx_power, pyLt, oq, h1, h2]; try rfl, ?_⟩
      simp [levelRx, h1, h2, sevOfRank_maxtwo n hn]
    · refine ⟨s, by simp [rule_rx_power, pyLt, oq, h1, h2]; try rfl, ?_⟩
      simp [levelRx, h1, h2, hs]

lemma rule_ber_mk (fmt : Fmt) (bp : Option ℚ) (s : ClsState) (n : ℕ)
    (hs : s.severity = sevOfRank n) (hn : n ≤ 2) :
    ∃ s', rule_ber fmt (oq bp) s = .ok s' ∧
      s'.severity = sevOfRank (n.max (levelBer bp)) := by
  cases bp with
  | none =>
    refine ⟨s, rfl, ?_⟩
    simp [levelBer, hs]
  | some x =>
    by_cases h1 : (1e-3 : ℚ) < x <;> by_cases h2 : (1e-4 : ℚ) < x <;>
        by_cases h3 : (1e-5 : ℚ) < x
    all_goals refine ⟨_, by simp [rule_ber, pyGt, oq, h1, h2, h3]; try rfl, ?_⟩
    all_goals
      first
      | (simp [levelBer, h1, h2, h3, sevOfRank_maxtwo n hn]; done)
      | (simp [levelBer, h1, h2, h3, hs]
         exact sevOfRank_escalate1 n hn)
      | simp [levelBer, h1, h2, h3, hs]

lemma rule_snr_mk (fmt : Fmt) (v : Option ℚ) (s : ClsState) (n : ℕ)
    (hs : s.severity = sevOfRank n) (hn : n ≤ 2) :
    ∃ s', rule_snr fmt (oq v) s = .ok s' ∧
      s'.severity = sevOfRank (n.max (levelSnr v)) := by
  cases v with
  | none =>
    refine ⟨s, rfl, ?_⟩
    simp [levelSnr, hs]
  | some x =>
    by_cases h1 : x < (12 : ℚ) <;> by_cases h2 : x < (15 : ℚ)
    all_goals refine ⟨_, by simp [rule_snr, pyLt, oq, h1, h2]; try rfl, ?_⟩
    all_goals
      first
      | (simp [levelSnr, h1, h2, sevOfRank_maxtwo n hn]; done)
      | (simp [levelSnr, h1, h2, hs]
         exact sevOfRank_escalate1 n hn)
      | simp [levelSnr, h1, h2, hs]

lemma rule_temperature_mk (fmt : Fmt) (v : Option ℚ) (s : ClsState) (n : ℕ)
    (hs : s.severity = sevOfRank n) (hn : n ≤ 2) :
    ∃ s', rule_temperature fmt (oq v) s = .ok s' ∧
      s'.severity = sevOfRank (n.max (levelTemp v)) := by
  cases v with
  | none =>
    refine ⟨s, rfl, ?_⟩
    simp [levelTemp, hs]
  | some x =>
    by_cases h1 : (75 : ℚ) < x
    all_goals refine ⟨_, by simp [rule_temperature, pyGt, oq, h1]; try rfl, ?_⟩
    all_goals
      first
      | (simp [levelTemp, h1, hs]
         exact sevOfRank_escalate1 n hn)
      | simp [levelTemp, h1, hs]

lemma rule_dsp_mk (dsp : Option String) (s : ClsState) (n : ℕ)
    (hs : s.severity = sevOfRank n) (hn : n ≤ 2) :
    (rule_dsp (ostr dsp) s).severity = sevOfRank (n.max (levelDsp dsp)) := by
  cases dsp with
  | none => simp [rule_dsp, ostr, levelDsp, hs]
  | some t =>
    by_cases hk : strLower t = "slow" ∨ strLower t = "degraded" ∨
        strLower t = "tracking"
    · simp only [rule_dsp, ostr, levelDsp, Option.some.injEq, hk, if_true]
      rw [hs]
      exact sevOfRank_escalate1 n hn
    · simp [rule_dsp, ostr, levelDsp, hk, hs]

lemma max_le_two {a b : ℕ} (ha : a ≤ 2) (hb : b ≤ 2) : a.max b ≤ 2 :=
  Nat.max_le.mpr ⟨ha, hb⟩

lemma check_mk_sev (fmt : Fmt) (rx snr bp bps t : Option ℚ) (dg : Option Bool)
    (dsp : Option String) :
    sevOfE (check_ieee_8023_compliance fmt (mkEvent rx snr bp bps t dg dsp)) =
      clsSeverityNat dg rx bp snr t dsp := by
  have m1 : Nat.max 0 (levelDegrade dg) ≤ 2 :=
    max_le_two (by omega) (levelDegrade_le dg)
  have m2 : (Nat.max 0 (levelDegrade dg)).max (levelRx rx) ≤ 2 :=
    max_le_two m1 (levelRx_le rx)
  have m3 : ((Nat.max 0 (levelDegrade dg)).max (levelRx rx)).max (levelBer bp) ≤ 2 :=
    max_le_two m2 (levelBer_le bp)
  have m4 : (((Nat.max 0 (levelDegrade dg)).max (levelRx rx)).max
      (levelBer bp)).max (levelSnr snr) ≤ 2 :=
    max_le_two m3 (levelSnr_le snr)
  have m5 : ((((Nat.max 0 (levelDegrade dg)).max (levelRx rx)).max
      (levelBer bp)).max (levelSnr snr)).max (levelTemp t) ≤ 2 :=
    max_le_two m4 (levelTemp_le t)
  have m6 : (((((Nat.max 0 (levelDegrade dg)).max (levelRx rx)).max
      (levelBer bp)).max (levelSnr snr)).max (levelTemp t)).max (levelDsp dsp) ≤ 2 :=
    max_le_two m5 (levelDsp_le dsp)
  have hb1 : (rule_qot_degrade (ob dg)
      ⟨"Unknown", "info", [], [], []⟩).severity =
      sevOfRank (Nat.max 0 (levelDegrade dg)) :=
    rule_qot_degrade_mk dg ⟨"Unknown", "info", [], [], []⟩ 0 rfl (by omega)
  obtain ⟨s2, hs2, hv2⟩ := rule_rx_power_mk fmt rx
    (rule_qot_degrade (ob dg) ⟨"Unknown", "info", [], [], []⟩)
    (Nat.max 0 (levelDegrade dg)) hb1 m1
  obtain ⟨s3, hs3, hv3⟩ := rule_ber_mk fmt bp s2
    ((Nat.max 0 (levelDegrade dg)).max (levelRx rx)) hv2 m2
  obtain ⟨s4, hs4, hv4⟩ := rule_snr_mk fmt snr s3 _ hv3 m3
  obtain ⟨s5, hs5, hv5⟩ := rule_temperature_mk fmt t s4 _ hv4 m4
  have hv6 := rule_dsp_mk dsp s5 _ hv5 m5
  unfold check_ieee_8023_compliance
  simp only [mkEvent, Option.getD_some]
  simp only [hs2, hs3, hs4, hs5]
  simp only [sevOfE]
  rw [finalize_severity, hv6, sevRank_sevOfRank _ m6]
  simp [clsSeverityNat, Nat.zero_max]

/-- C3: classifier severity is monotone.  Parts 1-7: no rule of
`check_ieee_8023_compliance` (nor the final fallback) ever lowers the
current severity rank within one call.  Parts 8-13: on well-typed events,
worsening a single field (lower rx power, higher pre-FEC BER, lower SNR,
higher temperature, setting the degrade flag, or a degraded dsp-adaptation
keyword) never decreases the resulting severity. -/
theorem c3_severity_monotonic :
    (∀ (dg : Value) (s : ClsState),
      sevRank s.severity ≤ sevRank (rule_qot_degrade dg s).severity) ∧
    (∀ (fmt : Fmt) (rx : Value) (s s' : ClsState),
      rule_rx_power fmt rx s = .ok s' →
      sevRank s.severity ≤ sevRank s'.severity) ∧
    (∀ (fmt : Fmt) (bp : Value) (s s' : ClsState),
      rule_ber fmt bp s = .ok s' →
      sevRank s.severity ≤ sevRank s'.severity) ∧
    (∀ (fmt : Fmt) (v : Value) (s s' : ClsState),
      rule_snr fmt v s = .ok s' →
      sevRank s.severity ≤ sevRank s'.severity) ∧
    (∀ (fmt : Fmt) (v : Value) (s s' : ClsState),
      rule_temperature fmt v s = .ok s' →
      sevRank s.severity ≤ sevRank s'.severity) ∧
    (∀ (dsp : Value) (s : ClsState),
      sevRank s.severity ≤ sevRank (rule_dsp dsp s).severity) ∧
    (∀ (e : PyEvent) (s : ClsState),
      (finalizeResult e s).severity = s.severity) ∧
    (∀ (fmt : Fmt) (x x' : ℚ) (snr bp bps t : Option ℚ) (dg : Option Bool)
        (dsp : Option String), x' ≤ x →
      sevOfE (check_ieee_8023_compliance fmt
        (mkEvent (some x) snr bp bps t dg dsp)) ≤
      sevOfE (check_ieee_8023_compliance fmt
        (mkEvent (some x') snr bp bps t dg dsp))) ∧
    (∀ (fmt : Fmt) (b b' : ℚ) (rx snr bps t : Option ℚ) (dg : Option Bool)
        (dsp : Option String), b ≤ b' →
      sevOfE (check_ieee_8023_compliance fmt
        (mkEvent rx snr (some b) bps t dg dsp)) ≤
      sevOfE (check_ieee_8023_compliance fmt
        (mkEvent rx snr (some b') bps t dg dsp))) ∧
    (∀ (fmt : Fmt) (x x' : ℚ) (rx bp bps t : Option ℚ) (dg : Option Bool)
        (dsp : Option String), x' ≤ x →
      sevOfE (check_ieee_8023_compliance fmt
        (mkEvent rx (some x) bp bps t dg dsp)) ≤
      sevOfE (check_ieee_8023_compliance fmt
        (mkEvent rx (some x') bp bps t dg dsp))) ∧
    (∀ (fmt : Fmt) (x x' : ℚ) (rx snr bp bps : Option ℚ) (dg : Option Bool)
        (dsp : Option String), x ≤ x' →
      sevOfE (check_ieee_8023_compliance fmt
        (mkEvent rx snr bp bps (some x) dg dsp)) ≤
      sevOfE (check_ieee_8023_compliance fmt
        (mkEvent rx snr bp bps (some x') dg dsp))) ∧
    (∀ (fmt : Fmt) (rx snr bp bps t : Option ℚ) (dg : Option Bool)
        (dsp : Option String),
      sevOfE (check_ieee_8023_compliance fmt
        (mkEvent rx snr bp bps t dg dsp)) ≤
      sevOfE (check_ieee_8023_compliance fmt
        (mkEvent rx snr bp bps t (some true) dsp))) ∧
    (∀ (fmt : Fmt) (rx snr bp bps t : Option ℚ) (dg : Option Bool)
        (dsp : Option String) (k : String),
      k = "slow" ∨ k = "degraded" ∨ k = "tracking" →
      sevOfE (check_ieee_8023_compliance fmt
        (mkEvent rx snr bp bps t dg dsp)) ≤
      sevOfE (check_ieee_8023_compliance fmt
        (mkEvent rx snr bp bps t dg (some k)))) := by
  refine ⟨rule_qot_degrade_mono, rule_rx_power_mono, rule_ber_mono,
    rule_snr_mono, rule_temperature_mono, rule_dsp_mono, finalize_severity,
    ?_, ?_, ?_, ?_, ?_, ?_⟩
  · intro fmt x x' snr bp bps t dg dsp h
    rw [check_mk_sev, check_mk_sev]
    have := levelRx_anti x x' h
    unfold clsSeverityNat
    exact max_le_max (max_le_max (max_le_max (max_le_max
      (max_le_max (le_refl _) this) (le_refl _)) (le_refl _))
      (le_refl _)) (le_refl _)
  · intro fmt b b' rx snr bps t dg dsp h
    rw [check_mk_sev, check_mk_sev]
    have := levelBer_mono b b' h
    unfold clsSeverityNat
    exact max_le_max (max_le_max (max_le_max (max_le_max
      (max_le_max (le_refl _) (le_refl _)) this) (le_refl _))
      (le_refl _)) (le_refl _)
  · intro fmt x x' rx bp bps t dg dsp h
    rw [check_mk_sev, check_mk_sev]
    have := levelSnr_anti x x' h
    unfold clsSeverityNat
    exact max_le_max (max_le_max (max_le_max (max_le_max
      (max_le_max (le_refl _) (le_refl _)) (le_refl _)) this)
      (le_refl _)) (le_refl _)
  · intro fmt x x' rx snr bp bps dg dsp h
    rw [check_mk_sev, check_mk_sev]
    have := levelTemp_mono x x' h
    unfold clsSeverityNat
    exact max_le_max (max_le_max (max_le_max (max_le_max
      (max_le_max (le_refl _) (le_refl _)) (le_refl _)) (le_refl _))
      this) (le_refl _)
  · intro fmt rx snr bp bps t dg dsp
    rw [check_mk_sev, check_mk_sev]
    have := levelDegrade_top dg
    unfold clsSeverityNat
    exact max_le_max (max_le_max (max_le_max (max_le_max
      (max_le_max this (le_refl _)) (le_refl _)) (le_refl _))
      (le_refl _)) (le_refl _)
  · intro fmt rx snr bp bps t dg dsp k hk
    rw [check_mk_sev, check_mk_sev]
    have := levelDsp_top dsp k hk
    unfold clsSeverityNat
    exact max_le_max (le_refl _) this

/-- C3 witness: the monotonicity theorem applied at concrete inputs, one
per conjunct, discharging every hypothesis concretely. -/
theorem c3_witness :
    (sevRank (⟨"Unknown", "info", [], [], []⟩ : ClsState).severity ≤
      sevRank (rule_qot_degrade .VNone ⟨"Unknown", "info", [], [], []⟩).severity) ∧
    (sevRank (⟨"Unknown", "info", [], [], []⟩ : ClsState).severity ≤
      sevRank (⟨"Unknown", "info", [], [], []⟩ : ClsState).severity) ∧
    (sevRank (⟨"Unknown", "info", [], [], []⟩ : ClsState).severity ≤
      sevRank (⟨"Unknown", "info", [], [], []⟩ : ClsState).severity) ∧
    (sevRank (⟨"Unknown", "info", [], [], []⟩ : ClsState).severity ≤
      sevRank (⟨"Unknown", "info", [], [], []⟩ : ClsState).severity) ∧
    (sevRank (⟨"Unknown", "info", [], [], []⟩ : ClsState).severity ≤
      sevRank (⟨"Unknown", "info", [], [], []⟩ : ClsState).severity) ∧
    (sevRank (⟨"Unknown", "info", [], [], []⟩ : ClsState).severity ≤
      sevRank (rule_dsp .VNone ⟨"Unknown", "info", [], [], []⟩).severity) ∧
    ((finalizeResult (mkEvent none none none none none none none)
        ⟨"Unknown", "info", [], [], []⟩).severity = "info") ∧
    (sevOfE (check_ieee_8023_compliance fmtTrivial
        (mkEvent (some (-20)) none none none none none none)) ≤
      sevOfE (check_ieee_8023_compliance fmtTrivial
        (mkEvent (some (-29)) none none none none none none))) ∧
    (sevOfE (check_ieee_8023_compliance fmtTrivial
        (mkEvent none none (some 0) none none none none)) ≤
      sevOfE (check_ieee_8023_compliance fmtTrivial
        (mkEvent none none (some 1) none none none none))) ∧
    (sevOfE (check_ieee_8023_compliance fmtTrivial
        (mkEvent none (some 20) none none none none none)) ≤
      sevOfE (check_ieee_8023_compliance fmtTrivial
        (mkEvent none (some 10) none none none none none))) ∧
    (sevOfE (check_ieee_8023_compliance fmtTrivial
        (mkEvent none none none none (some 20) none none)) ≤
      sevOfE (check_ieee_8023_compliance fmtTrivial
        (mkEvent none none none none (some 80) none none))) ∧
    (sevOfE (check_ieee_8023_compliance fmtTrivial
        (mkEvent none none none none none none none)) ≤
      sevOfE (check_ieee_8023_compliance fmtTrivial
        (mkEvent none none none none none (some true) none))) ∧
    (sevOfE (check_ieee_8023_compliance fmtTrivial
        (mkEvent none none none none none none none)) ≤
      sevOfE (check_ieee_8023_compliance fmtTrivial
        (mkEvent none none none none none none (some "slow")))) :=
  ⟨c3_severity_monotonic.1 .VNone _,
   c3_severity_monotonic.2.1 fmtTrivial .VNone _ _ rfl,
   c3_severity_monotonic.2.2.1 fmtTrivial .VNone _ _ rfl,
   c3_severity_monotonic.2.2.2.1 fmtTrivial .VNone _ _ rfl,
   c3_severity_monotonic.2.2.2.2.1 fmtTrivial .VNone _ _ rfl,
   c3_severity_monotonic.2.2.2.2.2.1 .VNone _,
   c3_severity_monotonic.2.2.2.2.2.2.1 (mkEvent none none none none none none none) _,
   c3_severity_monotonic.2.2.2.2.2.2.2.1 fmtTrivial (-20) (-29)
     none none none none none none (by norm_num),
   c3_severity_monotonic.2.2.2.2.2.2.2.2.1 fmtTrivial 0 1
     none none none none none none (by norm_num),
   c3_severity_monotonic.2.2.2.2.2.2.2.2.2.1 fmtTrivial 20 10
     none none none none none none (by norm_num),
   c3_severity_monotonic.2.2.2.2.2.2.2.2.2.2.1 fmtTrivial 20 80
     none none none none none none (by norm_num),
   c3_severity_monotonic.2.2.2.2.2.2.2.2.2.2.2.1 fmtTrivial
     none none none none none none none,
   c3_severity_monotonic.2.2.2.2.2.2.2.2.2.2.2.2 fmtTrivial
     none none none none none none none "slow" (Or.inl rfl)⟩

lemma vnum_ne_vnone (x : ℚ) : Value.VNum x ≠ Value.VNone :=
  fun h => Value.noConfusion h

/-- The degraded event of spec §8 / CLAIMS C8: rx −29.5 dBm, SNR 12.3 dB,
pre-FEC BER 5.2e−5, temperature 78.2 °C, degrade flag set, dsp "slow". -/
def degradedEvent : PyEvent :=
  mkEvent (some (-29.5)) (some 12.3) (some 5.2e-5) none (some 78.2)
    (some true) (some "slow")

/-- The seven probable causes the classifier records on `degradedEvent`. -/
def degradedCauses (fmt : Fmt) : List String :=
  ["QoT degradation reported by ONU.",
   "Low received optical power (" ++ fmt.f2 (-29.5) ++ " dBm).",
   "Received optical power beyond sensitivity threshold.",
   "Pre-FEC BER slightly elevated.",
   "SNR marginal (" ++ fmt.f1 12.3 ++ " dB).",
   "High ONU temperature (" ++ fmt.plain 78.2 ++ "°C).",
   "DSP adaptation struggling (slow/degraded)."]

lemma degradedCauses_nodup (fmt : Fmt) : (degradedCauses fmt).Nodup := by
  have hmap : (degradedCauses fmt).map (fun t => t.data.head?) =
      [some 'Q', some 'L', some 'R', some 'P', some 'S', some 'H', some 'D'] := by
    unfold degradedCauses
    simp only [List.map_cons, List.map_nil]
    rw [String.data_append, String.data_append,
        String.data_append, String.data_append,
        String.data_append, String.data_append]
    rfl
  have hnd : ((degradedCauses fmt).map (fun t => t.data.head?)).Nodup := by
    rw [hmap]
    decide
  exact hnd.of_map

/-- C8: on the degraded event the classifier reports severity critical,
layer PHY, abnormal, health major_issue, and at least five pairwise
distinct probable causes. -/
theorem c8_degraded_event_classification (fmt : Fmt) :
    ∃ r, check_ieee_8023_compliance fmt degradedEvent = .ok r ∧
      r.severity = "critical" ∧ r.likely_layer = "PHY" ∧
      r.is_abnormal = true ∧ r.health = "major_issue" ∧
      r.probable_causes = degradedCauses fmt ∧
      5 ≤ r.probable_causes.length ∧ r.probable_causes.Nodup := by
  have hs1 : rule_qot_degrade (ob (some true))
      ⟨"Unknown", "info", [], [], []⟩ =
      ⟨"PHY", "critical",
       ["QoT degradation reported by ONU."],
       ["Verify fiber continuity and connectors on the PON link.",
        "Measure optical power with OPM or perform OTDR test.",
        "Inspect splitter ports/splices for excessive loss."],
       ["QoT degrade indicates optical signal margins falling outside normal operating envelope for EPON PHY optics."]⟩ := rfl
  have hs2 : rule_rx_power fmt (oq (some (-29.5)))
      ⟨"PHY", "critical",
       ["QoT degradation reported by ONU."],
       ["Verify fiber continuity and connectors on the PON link.",
        "Measure optical power with OPM or perform OTDR test.",
        "Inspect splitter ports/splices for excessive loss."],
       ["QoT degrade indicates optical signal margins falling outside normal operating envelope for EPON PHY optics."]⟩ =
      .ok ⟨"PHY", "critical",
       ["QoT degradation reported by ONU.",
        "Low received optical power (" ++ fmt.f2 (-29.5) ++ " dBm).",
        "Received optical power beyond sensitivity threshold."],
       ["Verify fiber continuity and connectors on the PON link.",
        "Measure optical power with OPM or perform OTDR test.",
        "Inspect splitter ports/splices for excessive loss.",
        "Check passive plant for excessive insertion loss.",
        "Urgently inspect fiber drop and connectors."],
       ["QoT degrade indicates optical signal margins falling outside normal operating envelope for EPON PHY optics.",
        "Receiver input is near sensitivity limit for common EPON ONU optics."]⟩ := by
    norm_num [rule_rx_power, pyLt, oq, valueQ, vnum_ne_vnone]
  have hs3 : rule_ber fmt (oq (some 5.2e-5))
      ⟨"PHY", "critical",
       ["QoT degradation reported by ONU.",
        "Low received optical power (" ++ fmt.f2 (-29.5) ++ " dBm).",
        "Received optical power beyond sensitivity threshold."],
       ["Verify fiber continuity and connectors on the PON link.",
        "Measure optical power with OPM or perform OTDR test.",
        "Inspect splitter ports/splices for excessive loss.",
        "Check passive plant for excessive insertion loss.",
        "Urgently inspect fiber drop and connectors."],
       ["QoT degrade indicates optical signal margins falling outside normal operating envelope for EPON PHY optics.",
        "Receiver input is near sensitivity limit for common EPON ONU optics."]⟩ =
      .ok ⟨"PHY", "critical",
       ["QoT degradation reported by ONU.",
        "Low received optical power (" ++ fmt.f2 (-29.5) ++ " dBm).",
        "Received optical power beyond sensitivity threshold.",
        "Pre-FEC BER slightly elevated."],
       ["Verify fiber continuity and connectors on the PON link.",
        "Measure optical power with OPM or perform OTDR test.",
        "Inspect splitter ports/splices for excessive loss.",
        "Check passive plant for excessive insertion loss.",
        "Urgently inspect fiber drop and connectors.",
        "Monitor BER trend over time."],
       ["QoT degrade indicates optical signal margins falling outside normal operating envelope for EPON PHY optics.",
        "Receiver input is near sensitivity limit for common EPON ONU optics."]⟩ := by
    norm_num [rule_ber, pyGt, oq, valueQ, vnum_ne_vnone]
    decide
  have hs4 : rule_snr fmt (oq (some 12.3))
      ⟨"PHY", "critical",
       ["QoT degradation reported by ONU.",
        "Low received optical power (" ++ fmt.f2 (-29.5) ++ " dBm).",
        "Received optical power beyond sensitivity threshold.",
        "Pre-FEC BER slightly elevated."],
       ["Verify fiber continuity and connectors on the PON link.",
        "Measure optical power with OPM or perform OTDR test.",
        "Inspect splitter ports/splices for excessive loss.",
        "Check passive plant for excessive insertion loss.",
        "Urgently inspect fiber drop and connectors.",
        "Monitor BER trend over time."],
       ["QoT degrade indicates optical signal margins falling outside normal operating envelope for EPON PHY optics.",
        "Receiver input is near sensitivity limit for common EPON ONU optics."]⟩ =
      .ok ⟨"PHY", "critical",
       ["QoT degradation reported by ONU.",
        "Low received optical power (" ++ fmt.f2 (-29.5) ++ " dBm).",
        "Received optical power beyond sensitivity threshold.",
        "Pre-FEC BER slightly elevated.",
        "SNR marginal (" ++ fmt.f1 12.3 ++ " dB)."],
       ["Verify fiber continuity and connectors on the PON link.",
        "Measure optical power with OPM or perform OTDR test.",
        "Inspect splitter ports/splices for excessive loss.",
        "Check passive plant for excessive insertion loss.",
        "Urgently inspect fiber drop and connectors.",
        "Monitor BER trend over time.",
        "Inspect connectors for contamination or micro-bends."],
       ["QoT degrade indicates optical signal margins falling outside normal operating envelope for EPON PHY optics.",
        "Receiver input is near sensitivity limit for common EPON ONU optics."]⟩ := by
    norm_num [rule_snr, pyLt, oq, valueQ, vnum_ne_vnone]
    decide
  have hs5 : rule_temperature fmt (oq (some 78.2))
      ⟨"PHY", "critical",
       ["QoT degradation reported by ONU.",
        "Low received optical power (" ++ fmt.f2 (-29.5) ++ " dBm).",
        "Received optical power beyond sensitivity threshold.",
        "Pre-FEC BER slightly elevated.",
        "SNR marginal (" ++ fmt.f1 12.3 ++ " dB)."],
       ["Verify fiber continuity and connectors on the PON link.",
        "Measure optical power with OPM or perform OTDR test.",
        "Inspect splitter ports/splices for excessive loss.",
        "Check passive plant for excessive insertion loss.",
        "Urgently inspect fiber drop and connectors.",
        "Monitor BER trend over time.",
        "Inspect connectors for contamination or micro-bends."],
       ["QoT degrade indicates optical signal margins falling outside normal operating envelope for EPON PHY optics.",
        "Receiver input is near sensitivity limit for common EPON ONU optics."]⟩ =
      .ok ⟨"PHY", "critical",
       ["QoT degradation reported by ONU.",
        "Low received optical power (" ++ fmt.f2 (-29.5) ++ " dBm).",
        "Received optical power beyond sensitivity threshold.",
        "Pre-FEC BER slightly elevated.",
        "SNR marginal (" ++ fmt.f1 12.3 ++ " dB).",
        "High ONU temperature (" ++ fmt.plain 78.2 ++ "°C)."],
       ["Verify fiber continuity and connectors on the PON link.",
        "Measure optical power with OPM or perform OTDR test.",
        "Inspect splitter ports/splices for excessive loss.",
        "Check passive plant for excessive insertion loss.",
        "Urgently inspect fiber drop and connectors.",
        "Monitor BER trend over time.",
        "Inspect connectors for contamination or micro-bends.",
        "Check ONU ambient conditions and ventilation."],
       ["QoT degrade indicates optical signal margins falling outside normal operating envelope for EPON PHY optics.",
        "Receiver input is near sensitivity limit for common EPON ONU optics."]⟩ := by
    norm_num [rule_temperature, pyGt, oq, valueQ, vnum_ne_vnone]
    decide
  have hk : strLower "slow" = "slow" := rfl
  have hs6 : rule_dsp (ostr (some "slow"))
      ⟨"PHY", "critical",
       ["QoT degradation reported by ONU.",
        "Low received optical power (" ++ fmt.f2 (-29.5) ++ " dBm).",
        "Received optical power beyond sensitivity threshold.",
        "Pre-FEC BER slightly elevated.",
        "SNR marginal (" ++ fmt.f1 12.3 ++ " dB).",
        "High ONU temperature (" ++ fmt.plain 78.2 ++ "°C)."],
       ["Verify fiber continuity and connectors on the PON link.",
        "Measure optical power with OPM or perform OTDR test.",
        "Inspect splitter ports/splices for excessive loss.",
        "Check passive plant for excessive insertion loss.",
        "Urgently inspect fiber drop and connectors.",
        "Monitor BER trend over time.",
        "Inspect connectors for contamination or micro-bends.",
        "Check ONU ambient conditions and ventilation."],
       ["QoT degrade indicates optical signal margins falling outside normal operating envelope for EPON PHY optics.",
        "Receiver input is near sensitivity limit for common EPON ONU optics."]⟩ =
      ⟨"PHY", "critical", degradedCauses fmt,
       ["Verify fiber continuity and connectors on the PON link.",
        "Measure optical power with OPM or perform OTDR test.",
        "Inspect splitter ports/splices for excessive loss.",
        "Check passive plant for excessive insertion loss.",
        "Urgently inspect fiber drop and connectors.",
        "Monitor BER trend over time.",
        "Inspect connectors for contamination or micro-bends.",
        "Check ONU ambient conditions and ventilation.",
        "Check for unstable optical power or high dispersion."],
       ["QoT degrade indicates optical signal margins falling outside normal operating envelope for EPON PHY optics.",
        "Receiver input is near sensitivity limit for common EPON ONU optics.",
        "DSP struggling often correlates with low SNR or fluctuating power."]⟩ := by
    simp [rule_dsp, ostr, hk, degradedCauses]
  refine ⟨⟨.VNone, .VNone, .VNone, "PHY", "critical", degradedCauses fmt,
      ["Verify fiber continuity and connectors on the PON link.",
       "Measure optical power with OPM or perform OTDR test.",
       "Inspect splitter ports/splices for excessive loss.",
       "Check passive plant for excessive insertion loss.",
       "Urgently inspect fiber drop and connectors.",
       "Monitor BER trend over time.",
       "Inspect connectors for contamination or micro-bends.",
       "Check ONU ambient conditions and ventilation.",
       "Check for unstable optical power or high dispersion."],
      ["QoT degrade indicates optical signal margins falling outside normal operating envelope for EPON PHY optics.",
       "Receiver input is near sensitivity limit for common EPON ONU optics.",
       "DSP struggling often correlates with low SNR or fluctuating power."],
      true, "major_issue"⟩, ?_, rfl, rfl, rfl, rfl, rfl,
      by simp [degradedCauses], degradedCauses_nodup fmt⟩
  unfold check_ieee_8023_compliance
  simp only [degradedEvent, mkEvent, Option.getD_some]
  rw [hs1]
  simp only [hs2, hs3, hs4, hs5, hs6]
  simp [finalizeResult, degradedCauses]

/-! Cache worker (src/epon_adk/background/telemetry_cache_worker.py).
The module-level state is the triple
(`_global_parsed_cache`, `_cache_timestamp`, `_last_processed_record_hash`).
`hashlib.md5` is kept abstract as a function argument; the parsed-data type
is a type parameter.  `fetch_and_parse_with_agent` re-fetches the store and
runs the external parsing agent (google.adk runtime), so one cycle's parse
outcome is modelled as an oracle input `parseResult` (`none` models every
failure path inside it); what `update_cache` itself does with that outcome
is modelled faithfully, branch by branch. -/

/-- Outcome of one `update_cache` cycle, matching its four return paths:
no records fetched, fingerprint unchanged (no reparse, no write), parse
succeeded and the snapshot was saved, or the parse returned nothing. -/
inductive CycleOutcome where
  | noData : CycleOutcome
  | unchanged : CycleOutcome
  | saved : CycleOutcome
  | parseFailed : CycleOutcome
deriving DecidableEq, Repr

/-- The module-level cache snapshot state. -/
structure CacheState (D : Type) where
  parsedCache : Option D
  cacheTimestamp : Option ℚ
  lastHash : Option String
deriving DecidableEq, Repr

/-- `compute_data_hash`: empty batch hashes to `""`, otherwise md5 of the
first record concatenated with the last. -/
def compute_data_hash (md5 : String → String) (records : List String) :
    String :=
  match records with
  | [] => ""
  | r :: rs => md5 (r ++ rs.getLastD r)

/-- `has_new_data`: returns whether the batch is new and the (possibly
updated) stored fingerprint — the Python mutates the global fingerprint in
both the first-run and the hash-changed branch, before any parsing. -/
def has_new_data (md5 : String → String) (records : List String)
    (last : Option String) : Bool × Option String :=
  let h := compute_data_hash md5 records
  match last with
  | none => (true, some h)
  | some old => if h ≠ old then (true, some h) else (false, some old)

/-- `update_cache`: one refresh cycle over the snapshot state. -/
def update_cache {D : Type} (md5 : String → String) (records : List String)
    (parseResult : Option D) (now : ℚ) (s : CacheState D) :
    CacheState D × CycleOutcome :=
  if records = [] then (s, .noData)
  else
    let r := has_new_data md5 records s.lastHash
    let s1 : CacheState D := { s with lastHash := r.2 }
    if r.1 = false then (s1, .unchanged)
    else
      match parseResult with
      | some d =>
        ({ parsedCache := some d, cacheTimestamp := some now,
           lastHash := r.2 }, .saved)
      | none => (s1, .parseFailed)

/-- C5 (counterexample): a cycle that fetches a fresh batch and then fails
to parse ends in `parseFailed` yet has already overwritten the stored
fingerprint, so the previous snapshot is not left fully intact. -/
theorem c5_counterexample :
    (update_cache (fun _ => "h1") ["r"] (none : Option ℕ) 5
      ⟨some 42, some 1, some "h0"⟩).2 = .parseFailed ∧
    (update_cache (fun _ => "h1") ["r"] (none : Option ℕ) 5
      ⟨some 42, some 1, some "h0"⟩).1.lastHash ≠ some "h0" := by
  constructor
  · rfl
  · simp [update_cache, has_new_data, compute_data_hash]

/-- C5 (amended): the parsed data and `captured_at` are mutated only by a
successful cycle — an empty fetch leaves the whole state (fingerprint
included) unchanged, and a cycle whose parse yields nothing leaves data and
timestamp unchanged (though it may already have advanced the fingerprint). -/
theorem c5_failed_cycle_preserves_data_and_timestamp :
    (∀ (D : Type) (md5 : String → String) (p : Option D) (now : ℚ)
       (s : CacheState D), update_cache md5 [] p now s = (s, .noData)) ∧
    (∀ (D : Type) (md5 : String → String) (records : List String) (now : ℚ)
       (s : CacheState D),
       (update_cache md5 records (none : Option D) now s).1.parsedCache =
         s.parsedCache ∧
       (update_cache md5 records (none : Option D) now s).1.cacheTimestamp =
         s.cacheTimestamp) := by
  refine ⟨fun D md5 p now s => rfl, fun D md5 records now s => ?_⟩
  by_cases hre : records = []
  · subst hre
    exact ⟨rfl, rfl⟩
  · simp only [update_cache, if_neg hre]
    by_cases hflag : (has_new_data md5 records s.lastHash).1 = false <;>
      simp [hflag]

/-- C6: if the fingerprint of the fetched batch equals the stored one and a
stored fingerprint exists, the cycle is `unchanged` — no reparse, no write,
the whole snapshot (data, `captured_at`, fingerprint) is untouched; and two
consecutive cycles over a byte-identical non-empty batch that is new to the
worker parse exactly once (the first cycle parses, the second reports
`unchanged` and leaves the first cycle's state untouched). -/
theorem c6_unchanged_cycle_no_reparse :
    (∀ (D : Type) (md5 : String → String) (records : List String)
       (p : Option D) (now : ℚ) (s : CacheState D),
       records ≠ [] → s.lastHash = some (compute_data_hash md5 records) →
       update_cache md5 records p now s = (s, .unchanged)) ∧
    (∀ (D : Type) (md5 : String → String) (records : List String)
       (p1 p2 : Option D) (n1 n2 : ℚ) (s : CacheState D),
       records ≠ [] →
       s.lastHash ≠ some (compute_data_hash md5 records) →
       ((update_cache md5 records p1 n1 s).2 = .saved ∨
         (update_cache md5 records p1 n1 s).2 = .parseFailed) ∧
       (update_cache md5 records p2 n2
         (update_cache md5 records p1 n1 s).1).2 = .unchanged ∧
       (update_cache md5 records p2 n2
         (update_cache md5 records p1 n1 s).1).1 =
         (update_cache md5 records p1 n1 s).1) := by
  have hmain : ∀ (D : Type) (md5 : String → String) (records : List String)
      (p : Option D) (now : ℚ) (s : CacheState D),
      records ≠ [] → s.lastHash = some (compute_data_hash md5 records) →
      update_cache md5 records p now s = (s, .unchanged) := by
    intro D md5 records p now s hne hh
    obtain ⟨pc, ts, lh⟩ := s
    simp only at hh
    subst hh
    unfold update_cache
    rw [if_neg hne]
    simp [has_new_data]
  refine ⟨hmain, ?_⟩
  intro D md5 records p1 p2 n1 n2 s hne hh
  have hfirst : (update_cache md5 records p1 n1 s).1.lastHash =
      some (compute_data_hash md5 records) ∧
      ((update_cache md5 records p1 n1 s).2 = .saved ∨
        (update_cache md5 records p1 n1 s).2 = .parseFailed) := by
    obtain ⟨pc, ts, lh⟩ := s
    simp only at hh
    unfold update_cache
    rw [if_neg hne]
    rcases lh with _ | old
    · cases p1 <;> simp [has_new_data]
    · have hdiff : compute_data_hash md5 records ≠ old := by
        intro he
        exact hh (by rw [he])
      cases p1 <;> simp [has_new_data, hdiff]
  refine ⟨hfirst.2, ?_, ?_⟩
  · rw [hmain D md5 records p2 n2 _ hne hfirst.1]
  · rw [hmain D md5 records p2 n2 _ hne hfirst.1]

/-- C6 witness: the theorem applied at a concrete batch, hash function and
state: an up-to-date state is left untouched, and a fresh batch is parsed
exactly once across two cycles. -/
theorem c6_witness :
    (update_cache (fun _ => "H") ["rec"] (some 7) 3
      (⟨some 1, some 2, some "H"⟩ : CacheState ℕ) =
      (⟨some 1, some 2, some "H"⟩, .unchanged)) ∧
    (((update_cache (fun _ => "H") ["rec"] (some 7) 3
        (⟨none, none, none⟩ : CacheState ℕ)).2 = .saved ∨
      (update_cache (fun _ => "H") ["rec"] (some 7) 3
        (⟨none, none, none⟩ : CacheState ℕ)).2 = .parseFailed) ∧
     (update_cache (fun _ => "H") ["rec"] (some 8) 4
       (update_cache (fun _ => "H") ["rec"] (some 7) 3
         (⟨none, none, none⟩ : CacheState ℕ)).1).2 = .unchanged ∧
     (update_cache (fun _ => "H") ["rec"] (some 8) 4
       (update_cache (fun _ => "H") ["rec"] (some 7) 3
         (⟨none, none, none⟩ : CacheState ℕ)).1).1 =
       (update_cache (fun _ => "H") ["rec"] (some 7) 3
         (⟨none, none, none⟩ : CacheState ℕ)).1) :=
  ⟨c6_unchanged_cycle_no_reparse.1 ℕ (fun _ => "H") ["rec"] (some 7) 3
     ⟨some 1, some 2, some "H"⟩ (by simp) rfl,
   c6_unchanged_cycle_no_reparse.2 ℕ (fun _ => "H") ["rec"] (some 7) (some 8)
     3 4 ⟨none, none, none⟩ (by simp) (by simp)⟩

/-! Telemetry parser (src/epon_adk/agents/parsing_agent.py) and record
store (src/epon_adk/db/netconf_log.py).  `xml.etree.ElementTree` is an
external library: parsed documents are modelled as `Xml` trees (tag, text,
children — `text` is ET's `.text`, the character data before the first
child) and `ET.fromstring` is a function parameter; concrete theorems
instantiate it with an explicit table giving the obvious tree of the one
input they use.  All string work is done on `List Char` with structural
recursion so that concrete inputs evaluate inside the kernel. -/

mutual
inductive Xml where
  | mk : String → Option String → XmlList → Xml
inductive XmlList where
  | nil : XmlList
  | cons : Xml → XmlList → XmlList
end

/-- The exception raised by `ET.fromstring` on malformed input. -/
inductive ETParseError where
  | parseError : ETParseError
deriving DecidableEq, Repr

def Xml.tag : Xml → String
  | .mk t _ _ => t

def Xml.text : Xml → Option String
  | .mk _ tx _ => tx

def Xml.children : Xml → XmlList
  | .mk _ _ cs => cs

/-- Element truthiness in Python: an Element is falsy when it has no
children (`len(elem) == 0`). -/
def xmlHasChildren (x : Xml) : Bool :=
  match x.children with
  | .nil => false
  | .cons _ _ => true

/-- Drop a tag's namespace part: everything up to and including the first
closing brace (`elem.tag.split("\x7d", 1)[1]`), if one occurs. -/
def dropThroughBrace : List Char → Option (List Char)
  | [] => none
  | c :: rest => if c = '\x7d' then some rest else dropThroughBrace rest

def stripNsTag (t : String) : String :=
  match dropThroughBrace t.data with
  | some rest => ⟨rest⟩
  | none => t

mutual
/-- The namespace-stripping loop `for elem in root.iter(): ...`. -/
def stripNs : Xml → Xml
  | .mk t tx cs => .mk (stripNsTag t) tx (stripNsList cs)
def stripNsList : XmlList → XmlList
  | .nil => .nil
  | .cons x xs => .cons (stripNs x) (stripNsList xs)
end

mutual
/-- All proper descendants of a node with the given tag, in document
order — the candidates of `root.find(".//tag")`. -/
def findAllDesc (tag : String) : Xml → List Xml
  | .mk _ _ cs => findAllList tag cs
def findAllList (tag : String) : XmlList → List Xml
  | .nil => []
  | .cons c cs =>
    (if c.tag = tag then [c] else []) ++ findAllDesc tag c ++ findAllList tag cs
end

/-- `root.find(".//tag")`: first matching proper descendant. -/
def findDesc (tag : String) (x : Xml) : Option Xml :=
  (findAllDesc tag x).head?

/-- Substring test, Python's `sub in s`. -/
def listContains (sub : List Char) : List Char → Bool
  | [] => sub.isEmpty
  | c :: t => sub.isPrefixOf (c :: t) || listContains sub t

/-- First index of a substring, Python's `s.find(sub)` (`none` for -1). -/
def listFindSub (sub : List Char) : List Char → Option ℕ
  | [] => if sub.isEmpty then some 0 else none
  | c :: t =>
    if sub.isPrefixOf (c :: t) then some 0 else (listFindSub sub t).map (· + 1)

/-- Python's `s.split(sep)` for non-empty `sep` (left-to-right,
non-overlapping, empty pieces kept), with a structural fuel so concrete
inputs reduce in the kernel. -/
def pySplitGo (sep : List Char) : ℕ → List Char → List Char → List (List Char)
  | _, [], acc => [acc.reverse]
  | 0, l, acc => [acc.reverse ++ l]
  | fuel + 1, c :: t, acc =>
    if sep.isPrefixOf (c :: t) then
      acc.reverse :: pySplitGo sep fuel (List.drop sep.length (c :: t)) []
    else pySplitGo sep fuel t (c :: acc)

def pySplit (sep s : String) : List String :=
  if sep.data.isEmpty then [s]
  else (pySplitGo sep.data s.data.length s.data []).map (fun l => (⟨l⟩ : String))

/-- Python whitespace for `str.strip()` (ASCII range). -/
def isPySpace (c : Char) : Bool :=
  c = ' ' ∨ c = '\t' ∨ c = '\n' ∨ c = '\r' ∨ c = '\x0b' ∨ c = '\x0c'

def listStrip (l : List Char) : List Char :=
  ((l.dropWhile isPySpace).reverse.dropWhile isPySpace).reverse

/-- Python's `a[-n:]` slice (for `n = 0` it is the whole list). -/
def pyLastN (n : ℕ) (l : List α) : List α :=
  if n = 0 then l else l.drop (l.length - n)

/-- Python's `str(x)` on a nullable string: `None` prints as "None". -/
def pyStrOpt : Option String → String
  | none => "None"
  | some t => t

def digitsToNat (ds : List Char) : ℕ :=
  ds.foldl (fun a c => a * 10 + (c.toNat - 48)) 0

/-- Model of Python `float(t)` on ordinary finite decimal/scientific
literals: optional surrounding whitespace, optional sign, digits with an
optional fraction, optional exponent.  `none` models `ValueError`.
(Python additionally accepts `inf`/`nan`/underscores; no such text occurs
in this repository's data.) -/
def pyFloat (t : String) : Option ℚ :=
  let l := listStrip t.data
  let sl : ℚ × List Char :=
    match l with
    | '+' :: r => (1, r)
    | '-' :: r => (-1, r)
    | r => (1, r)
  let ip := sl.2.takeWhile Char.isDigit
  let l2 := sl.2.dropWhile Char.isDigit
  let fp : List Char × List Char :=
    match l2 with
    | '.' :: r => (r.takeWhile Char.isDigit, r.dropWhile Char.isDigit)
    | r => ([], r)
  if ip.isEmpty && fp.1.isEmpty then none
  else
    let mant : ℚ :=
      (digitsToNat ip : ℚ) + (digitsToNat fp.1 : ℚ) / (10 : ℚ) ^ fp.1.length
    match fp.2 with
    | [] => some (sl.1 * mant)
    | c :: r =>
      if c = 'e' ∨ c = 'E' then
        let es : ℤ × List Char :=
          match r with
          | '+' :: r2 => (1, r2)
          | '-' :: r2 => (-1, r2)
          | r2 => (1, r2)
        let ed := es.2.takeWhile Char.isDigit
        let rest := es.2.dropWhile Char.isDigit
        if ed.isEmpty || !rest.isEmpty then none
        else some (sl.1 * mant * (10 : ℚ) ^ (es.1 * (digitsToNat ed : ℤ)))
      else none

/-- `_to_float`: `None`/empty text becomes null, non-empty text goes
through `float(t)`, whose failure is an uncaught `ValueError`. -/
def _to_float : Option String → Except PyError (Option ℚ)
  | none => .ok none
  | some t =>
    if t = "" then .ok none
    else
      match pyFloat t with
      | some q => .ok (some q)
      | none => .error .valueError

/-- The `qot` sub-dictionary produced by `_parse_single_record`. -/
structure QotVals where
  rx_power_dBm : Option ℚ
  snr_dB : Option ℚ
  ber_pre_fec : Option ℚ
  ber_post_fec : Option ℚ
  temperature : Option ℚ
deriving DecidableEq, Repr

/-- The `status` sub-dictionary produced by `_parse_single_record`. -/
structure StatusVals where
  qot_degrade : Option Bool
  dsp_adaptation : Option String
deriving DecidableEq, Repr

/-- A parsed telemetry event. -/
structure TelemetryEvent where
  timestamp : Option String
  olt_id : Option String
  onu_id : Option String
  qot : QotVals
  status : StatusVals
deriving DecidableEq, Repr

/-- `elem.text if elem is not None else None`. -/
def elText : Option Xml → Option String
  | some el => el.text
  | none => none

/-- `_parse_single_record`: parse one notification block.  `ET.ParseError`
is caught (the block is skipped, `.ok none`); a `ValueError` escaping
`_to_float` propagates.  Note the timestamp guard is Python truthiness of
the Element (`if event_time_elem:`), false for childless elements. -/
def _parse_single_record (fromstring : String → Except ETParseError Xml)
    (raw_record : String) : Except PyError (Option TelemetryEvent) :=
  match fromstring raw_record with
  | .error _ => .ok none
  | .ok root0 =>
    let root := stripNs root0
    let ts : Option String :=
      match findDesc "eventTime" root with
      | some el => if xmlHasChildren el then el.text else none
      | none => none
    let olt : Option String := elText (findDesc "olt-id" root)
    let onu : Option String :=
      match findDesc "onu-id" root with
      | some el => some (pyStrOpt el.text)
      | none => none
    match _to_float (elText (findDesc "rx-power" root)) with
    | .error e => .error e
    | .ok rxq =>
      match _to_float (elText (findDesc "snr" root)) with
      | .error e => .error e
      | .ok snrq =>
        match _to_float (elText (findDesc "ber-pre-fec" root)) with
        | .error e => .error e
        | .ok bpre =>
          match _to_float (elText (findDesc "ber-post-fec" root)) with
          | .error e => .error e
          | .ok bpost =>
            match _to_float (elText (findDesc "temperature" root)) with
            | .error e => .error e
            | .ok tempq =>
              let qd : Option Bool :=
                match findDesc "qot-degrade" root with
                | some el =>
                  match el.text with
                  | some tx =>
                    if tx ≠ "" then some (strLower tx = "true") else none
                  | none => none
                | none => none
              let dsp : Option String := elText (findDesc "dsp-adaptation" root)
              .ok (some ⟨ts, olt, onu, ⟨rxq, snrq, bpre, bpost, tempq⟩,
                ⟨qd, dsp⟩⟩)

/-- Truthiness of `event.get("onu_id")`. -/
def eventTruthyOnu (ev : TelemetryEvent) : Bool :=
  match ev.onu_id with
  | some t => !(t == "")
  | none => false

/-- The block loop of `parse_telemetry_log`: skip blocks without
`"<notification"`, re-append the closing tag, slice from the first
`"<notification"`, parse, keep events with a truthy `onu_id`. -/
def processBlocks (fromstring : String → Except ETParseError Xml) :
    List String → Except PyError (List TelemetryEvent)
  | [] => .ok []
  | block :: rest =>
    if listContains "<notification".data block.data = false then
      processBlocks fromstring rest
    else
      let full := block ++ "</notification>"
      match listFindSub "<notification".data full.data with
      | none => processBlocks fromstring rest
      | some idx =>
        let clean : String := ⟨full.data.drop idx⟩
        match _parse_single_record fromstring clean with
        | .error e => .error e
        | .ok none => processBlocks fromstring rest
        | .ok (some ev) =>
          if eventTruthyOnu ev then
            (processBlocks fromstring rest).map (fun evs => ev :: evs)
          else processBlocks fromstring rest

/-- `str(event["onu_id"])`, the grouping key. -/
def keyOfEvent (ev : TelemetryEvent) : String := pyStrOpt ev.onu_id

/-- One step of building the insertion-ordered `grouped` dict:
append to an existing key's list, or add a new key at the end. -/
def insertGrouped (acc : List (String × List TelemetryEvent)) (oid : String)
    (ev : TelemetryEvent) : List (String × List TelemetryEvent) :=
  match acc with
  | [] => [(oid, [ev])]
  | (k, vs) :: t =>
    if k = oid then (k, vs ++ [ev]) :: t else (k, vs) :: insertGrouped t oid ev

def groupByOnu (evs : List TelemetryEvent) :
    List (String × List TelemetryEvent) :=
  evs.foldl (fun acc ev => insertGrouped acc (keyOfEvent ev) ev) []

/-- `parse_telemetry_log`: split on `"</notification>"`, parse the blocks,
group by ONU id preserving insertion order, keep the last 5 per group. -/
def parse_telemetry_log (fromstring : String → Except ETParseError Xml)
    (raw_log : String) :
    Except PyError (List (String × List TelemetryEvent)) :=
  let blocks := pySplit "</notification>" raw_log
  match processBlocks fromstring blocks with
  | .error e => .error e
  | .ok parsed_events =>
    let grouped := groupByOnu parsed_events
    .ok (grouped.map (fun p => (p.1, pyLastN 5 p.2)))

/-- The line loop of `get_latest_netconf_records` assembling notification
blocks from the log file's lines. -/
def assembleRecords (content : String) : List String :=
  let step := fun (st : List String × List String) (line : String) =>
    if "<notification".data.isPrefixOf (listStrip line.data) then
      (st.1, [line])
    else if "</notification>".data.isPrefixOf (listStrip line.data) then
      (st.1 ++ [(⟨List.intercalate ['\n'] ((st.2 ++ [line]).map String.data)⟩ : String)], [])
    else if st.2 ≠ [] then (st.1, st.2 ++ [line])
    else st
  ((pySplit "\n" content).foldl step ([], [])).1

/-- The per-record filter of the `onu_id` branch: parse, strip namespaces,
compare `str(onu_elem.text)` with the requested id; `ET.ParseError` means
no match (the record is skipped). -/
def onuMatches (fromstring : String → Except ETParseError Xml)
    (record : String) (oid : String) : Bool :=
  match fromstring record with
  | .error _ => false
  | .ok root0 =>
    let root := stripNs root0
    match findDesc "onu-id" root with
    | some el => pyStrOpt el.text == oid
    | none => false

/-- `get_latest_netconf_records` over the log file's content (the file
read is modelled by passing the content; a missing file is the empty
content, which assembles to no records). -/
def get_latest_netconf_records
    (fromstring : String → Except ETParseError Xml) (content : String)
    (count : ℕ) (onu_id : Option String) : List String :=
  let records := assembleRecords content
  match onu_id with
  | some oid =>
    if oid = "" then pyLastN count records
    else
      let filtered := records.foldl
        (fun acc r => if onuMatches fromstring r oid then acc ++ [r] else acc)
        []
      pyLastN count filtered
  | none => pyLastN count records

/-! C2: error handling of the parser. -/

/-- Models `ET.fromstring` on the one block used by the C2 counterexample:
a well-formed notification whose `rx-power` text is not numeric. -/
def fromstringBadRx (s : String) : Except ETParseError Xml :=
  if s = "<notification><onu-id>1</onu-id><rx-power>abc</rx-power></notification>" then
    .ok (.mk "notification" none
      (.cons (.mk "onu-id" (some "1") .nil)
        (.cons (.mk "rx-power" (some "abc") .nil) .nil)))
  else .error .parseError

/-- C2 (counterexample): a batch containing one well-formed record whose
`rx-power` text is `"abc"` makes `parse_telemetry_log` raise `ValueError`
(`float("abc")` is not caught), instead of the field becoming null. -/
theorem c2_counterexample :
    parse_telemetry_log fromstringBadRx
      "<notification><onu-id>1</onu-id><rx-power>abc</rx-power></notification>" =
      .error .valueError := rfl

lemma processBlocks_all_skipped (fromstring : String → Except ETParseError Xml) :
    ∀ bs : List String,
    (∀ b ∈ bs, listContains "<notification".data b.data = false) →
    processBlocks fromstring bs = .ok [] := by
  intro bs
  induction bs with
  | nil => intro _; rfl
  | cons b rest ih =>
    intro h
    have hb := h b (by simp)
    simp only [processBlocks, hb, if_pos]
    exact ih fun x hx => h x (by simp [hx])

/-- C2 (amended): a block that fails XML parsing is skipped without
aborting the batch; an absent or empty numeric field becomes null; a block
without `"<notification"` is ignored; and if no block qualifies the call
returns the empty mapping.  But a numeric field present with non-empty,
non-numeric text raises `ValueError`, aborting the whole call — there is
no null fallback for it. -/
theorem c2_malformed_handling :
    (∀ (fromstring : String → Except ETParseError Xml) (s : String)
       (e : ETParseError), fromstring s = .error e →
       _parse_single_record fromstring s = .ok none) ∧
    (_to_float none = .ok none) ∧
    (_to_float (some "") = .ok none) ∧
    (∀ t : String, t ≠ "" → pyFloat t = none →
      _to_float (some t) = .error .valueError) ∧
    (∀ (fromstring : String → Except ETParseError Xml) (b : String)
       (rest : List String),
       listContains "<notification".data b.data = false →
       processBlocks fromstring (b :: rest) = processBlocks fromstring rest) ∧
    (∀ (fromstring : String → Except ETParseError Xml) (raw : String),
       (∀ b ∈ pySplit "</notification>" raw,
         listContains "<notification".data b.data = false) →
       parse_telemetry_log fromstring raw = .ok []) := by
  refine ⟨?_, rfl, rfl, ?_, ?_, ?_⟩
  · intro fromstring s e h
    unfold _parse_single_record
    rw [h]
  · intro t ht hf
    simp [_to_float, ht, hf]
  · intro fromstring b rest h
    simp [processBlocks, h]
  · intro fromstring raw h
    have hz := processBlocks_all_skipped fromstring
      (pySplit "</notification>" raw) h
    simp [parse_telemetry_log, hz, groupByOnu]

/-- C2 witness: the amended theorem applied at concrete inputs — a
failing `fromstring`, the unparseable text `"abc"`, a block without a
notification tag, and a batch with no notification blocks at all. -/
theorem c2_witness :
    (_parse_single_record (fun _ => .error .parseError) "x" = .ok none) ∧
    (_to_float none = .ok none) ∧
    (_to_float (some "") = .ok none) ∧
    (_to_float (some "abc") = .error .valueError) ∧
    (processBlocks (fun _ => .error .parseError) ["junk"] =
      processBlocks (fun _ => .error .parseError) []) ∧
    (parse_telemetry_log (fun _ => .error .parseError) "no blocks here" =
      .ok []) :=
  ⟨c2_malformed_handling.1 (fun _ => .error .parseError) "x" .parseError rfl,
   c2_malformed_handling.2.1,
   c2_malformed_handling.2.2.1,
   c2_malformed_handling.2.2.2.1 "abc" (by decide) rfl,
   c2_malformed_handling.2.2.2.2.1 (fun _ => .error .parseError) "junk" []
     (by decide),
   c2_malformed_handling.2.2.2.2.2 (fun _ => .error .parseError)
     "no blocks here" (by decide)⟩

/-! C4: per-device history is the last ≤ 5 parsed events. -/

/-- The lookup result a grouping fold should produce, given what the
accumulator already holds and the events still to be filed. -/
def groupSpecF (o : Option (List TelemetryEvent))
    (F : List TelemetryEvent) : Option (List TelemetryEvent) :=
  match o with
  | some v => some (v ++ F)
  | none => if F = [] then none else some F

lemma lookup_insertGrouped (k oid : String) (ev : TelemetryEvent)
    (acc : List (String × List TelemetryEvent)) :
    List.lookup k (insertGrouped acc oid ev) =
      if k = oid then some ((List.lookup k acc).getD [] ++ [ev])
      else List.lookup k acc := by
  induction acc with
  | nil =>
    by_cases h : k = oid
    · have hb : (k == oid) = true := beq_iff_eq.mpr h
      simp [insertGrouped, List.lookup, hb, h]
    · have hb : (k == oid) = false := beq_eq_false_iff_ne.mpr h
      simp [insertGrouped, List.lookup, hb, h]
  | cons p t ih =>
    obtain ⟨k1, v1⟩ := p
    simp only [insertGrouped]
    by_cases h1 : k1 = oid
    · rw [if_pos h1]
      by_cases h2 : k = k1
      · have hb : (k == k1) = true := beq_iff_eq.mpr h2
        have hb2 : (oid == k1) = true := beq_iff_eq.mpr h1.symm
        have hko : k = oid := h2.trans h1
        simp [List.lookup, hb, hb2, hko]
      · have hb : (k == k1) = false := beq_eq_false_iff_ne.mpr h2
        have hko : ¬k = oid := fun h => h2 (h.trans h1.symm)
        simp [List.lookup, hb, hko]
    · rw [if_neg h1]
      by_cases h2 : k = k1
      · have hb : (k == k1) = true := beq_iff_eq.mpr h2
        have hko : ¬k = oid := fun h => h1 (h2.symm.trans h)
        simp [List.lookup, hb, hko]
      · have hb : (k == k1) = false := beq_eq_false_iff_ne.mpr h2
        simp [List.lookup, hb, ih]

lemma lookup_groupFold (k : String) (evs : List TelemetryEvent) :
    ∀ acc, List.lookup k
        (evs.foldl (fun a e => insertGrouped a (keyOfEvent e) e) acc) =
      groupSpecF (List.lookup k acc)
        (evs.filter (fun e => keyOfEvent e == k)) := by
  induction evs with
  | nil =>
    intro acc
    cases h : List.lookup k acc <;> simp [groupSpecF, h]
  | cons e t ih =>
    intro acc
    simp only [List.foldl_cons]
    rw [ih, lookup_insertGrouped]
    by_cases hk : k = keyOfEvent e
    · have hb : (keyOfEvent e == k) = true := beq_iff_eq.mpr hk.symm
      have hf : (e :: t).filter (fun x => keyOfEvent x == k) =
          e :: t.filter (fun x => keyOfEvent x == k) := by
        simp [List.filter_cons, hb]
      rw [hf, if_pos hk]
      cases ho : List.lookup k acc <;> simp [groupSpecF]
    · have hb : (keyOfEvent e == k) = false :=
        beq_eq_false_iff_ne.mpr fun h => hk h.symm
      have hf : (e :: t).filter (fun x => keyOfEvent x == k) =
          t.filter (fun x => keyOfEvent x == k) := by
        simp [List.filter_cons, hb]
      rw [hf, if_neg hk]

lemma lookup_map_values (k : String)
    (f : List TelemetryEvent → List TelemetryEvent) :
    ∀ xs : List (String × List TelemetryEvent),
    List.lookup k (xs.map (fun p => (p.1, f p.2))) =
      (List.lookup k xs).map f := by
  intro xs
  induction xs with
  | nil => rfl
  | cons p t ih =>
    obtain ⟨a, b⟩ := p
    by_cases h : k = a
    · have hb : (k == a) = true := beq_iff_eq.mpr h
      simp [List.lookup, hb]
    · have hb : (k == a) = false := beq_eq_false_iff_ne.mpr h
      simp [List.lookup, hb, ih]

lemma pyLastN_length_le {α : Type} (n : ℕ) (hn : n ≠ 0) (l : List α) :
    (pyLastN n l).length ≤ n := by
  simp [pyLastN, hn]
  omega

/-- C4: every value in the mapping returned by `parse_telemetry_log` has
length at most 5 and is exactly the last (up to 5) successfully parsed
events of that `onu_id`, in order of appearance. -/
theorem c4_history_bounded_last5
    (fromstring : String → Except ETParseError Xml) (raw : String)
    (res : List (String × List TelemetryEvent)) (oid : String)
    (l : List TelemetryEvent)
    (hp : parse_telemetry_log fromstring raw = .ok res)
    (hl : List.lookup oid res = some l) :
    l.length ≤ 5 ∧
      ∃ evs, processBlocks fromstring (pySplit "</notification>" raw) = .ok evs ∧
        l = pyLastN 5 (evs.filter (fun e => keyOfEvent e == oid)) := by
  cases hpb : processBlocks fromstring (pySplit "</notification>" raw) with
  | error e => simp [parse_telemetry_log, hpb] at hp
  | ok evs =>
    simp only [parse_telemetry_log, hpb, Except.ok.injEq] at hp
    subst hp
    rw [lookup_map_values] at hl
    cases hg : List.lookup oid (groupByOnu evs) with
    | none => rw [hg] at hl; cases hl
    | some v =>
      rw [hg] at hl
      simp only [Option.map_some'] at hl
      have hv : v = evs.filter (fun e => keyOfEvent e == oid) := by
        unfold groupByOnu at hg
        rw [lookup_groupFold oid evs []] at hg
        simp only [List.lookup, groupSpecF] at hg
        by_cases hF : evs.filter (fun e => keyOfEvent e == oid) = []
        · rw [if_pos hF] at hg
          cases hg
        · rw [if_neg hF] at hg
          exact (Option.some.inj hg).symm
      subst hv
      have hl2 : pyLastN 5 (evs.filter (fun e => keyOfEvent e == oid)) = l :=
        Option.some.inj hl
      constructor
      · rw [← hl2]
        exact pyLastN_length_le 5 (by omega) _
      · exact ⟨evs, rfl, hl2.symm⟩

/-- Models `ET.fromstring` on the single clean notification block used by
the C4 witness. -/
def fromstringOnu1 (s : String) : Except ETParseError Xml :=
  if s = "<notification><onu-id>1</onu-id></notification>" then
    .ok (.mk "notification" none (.cons (.mk "onu-id" (some "1") .nil) .nil))
  else .error .parseError

/-- Six copies of the same notification block for ONU 1. -/
def sixOnu1Batch : String :=
  "<notification><onu-id>1</onu-id></notification><notification><onu-id>1</onu-id></notification><notification><onu-id>1</onu-id></notification><notification><onu-id>1</onu-id></notification><notification><onu-id>1</onu-id></notification><notification><onu-id>1</onu-id></notification>"

/-- The event each of those blocks parses to. -/
def onu1Event : TelemetryEvent :=
  ⟨none, none, some "1", ⟨none, none, none, none, none⟩, ⟨none, none⟩⟩

/-- C4 witness: parsing six identical ONU-1 blocks yields a history of
exactly the last five parsed events. -/
theorem c4_witness :
    ([onu1Event, onu1Event, onu1Event, onu1Event, onu1Event] :
        List TelemetryEvent).length ≤ 5 ∧
      ∃ evs, processBlocks fromstringOnu1
          (pySplit "</notification>" sixOnu1Batch) = .ok evs ∧
        [onu1Event, onu1Event, onu1Event, onu1Event, onu1Event] =
          pyLastN 5 (evs.filter (fun e => keyOfEvent e == "1")) :=
  c4_history_bounded_last5 fromstringOnu1 sixOnu1Batch
    [("1", [onu1Event, onu1Event, onu1Event, onu1Event, onu1Event])] "1"
    [onu1Event, onu1Event, onu1Event, onu1Event, onu1Event] rfl rfl

/-! C7: the timestamp of a parsed record. -/

/-- A standard notification with a leaf `eventTime` element. -/
def eventTimeRecord : String :=
  "<notification><eventTime>2025-11-24T10:00:00Z</eventTime><onu-id>7</onu-id></notification>"

/-- Models `ET.fromstring` on `eventTimeRecord`. -/
def fromstringEventTime (s : String) : Except ETParseError Xml :=
  if s = eventTimeRecord then
    .ok (.mk "notification" none
      (.cons (.mk "eventTime" (some "2025-11-24T10:00:00Z") .nil)
        (.cons (.mk "onu-id" (some "7") .nil) .nil)))
  else .error .parseError

/-- C7 (code bug): the record's `eventTime` element is present with an
ISO-8601 text, yet the parsed event's `timestamp` is null — the guard
`if event_time_elem:` tests Python Element truthiness, which is false for
a childless element, so the eventTime text is never copied. -/
theorem c7_eventtime_present_timestamp_null :
    (∃ root, fromstringEventTime eventTimeRecord = .ok root ∧
      findDesc "eventTime" (stripNs root) =
        some (.mk "eventTime" (some "2025-11-24T10:00:00Z") .nil)) ∧
    parse_telemetry_log fromstringEventTime eventTimeRecord =
      .ok [("7", [⟨none, none, some "7", ⟨none, none, none, none, none⟩,
        ⟨none, none⟩⟩])] :=
  ⟨⟨.mk "notification" none
      (.cons (.mk "eventTime" (some "2025-11-24T10:00:00Z") .nil)
        (.cons (.mk "onu-id" (some "7") .nil) .nil)), rfl, rfl⟩, rfl⟩

/-! C9: filtered reads of the record store. -/

lemma foldl_filter_append {α : Type} (p : α → Bool) (l : List α) :
    ∀ acc : List α,
    l.foldl (fun a x => if p x then a ++ [x] else a) acc = acc ++ l.filter p := by
  induction l with
  | nil => intro acc; simp
  | cons x t ih =>
    intro acc
    by_cases hp : p x <;>
      simp [List.foldl_cons, hp, ih, List.filter_cons]

/-- C9: a filtered read returns exactly the (up to `count`) most recent
records whose XML parses and carries the requested `onu-id`; records that
fail to parse are silently skipped, are not returned, do not count toward
the limit (the limit is applied after filtering), and cause no error. -/
theorem c9_filtered_read_skips_malformed
    (fromstring : String → Except ETParseError Xml) (content : String)
    (count : ℕ) (oid : String) (h : oid ≠ "") :
    get_latest_netconf_records fromstring content count (some oid) =
      pyLastN count ((assembleRecords content).filter
        (fun r => onuMatches fromstring r oid)) ∧
    ∀ r ∈ get_latest_netconf_records fromstring content count (some oid),
      ∃ root, fromstring r = .ok root := by
  have heq : get_latest_netconf_records fromstring content count (some oid) =
      pyLastN count ((assembleRecords content).filter
        (fun r => onuMatches fromstring r oid)) := by
    simp only [get_latest_netconf_records, if_neg h]
    rw [foldl_filter_append]
    simp
  refine ⟨heq, ?_⟩
  intro r hr
  rw [heq] at hr
  have hr2 : r ∈ (assembleRecords content).filter
      (fun x => onuMatches fromstring x oid) := by
    unfold pyLastN at hr
    split at hr
    · exact hr
    · exact List.mem_of_mem_drop hr
  have hm := List.of_mem_filter hr2
  cases hfs : fromstring r with
  | error e =>
    unfold onuMatches at hm
    rw [hfs] at hm
    cases hm
  | ok root => exact ⟨root, rfl⟩

/-- A log file content with three ONU-1/2 records, the middle one
malformed; models the file read by `get_latest_netconf_records`. -/
def logContent : String :=
  "<notification>\n<onu-id>1</onu-id>\n</notification>\n<notification>\n<bad\n</notification>\n<notification>\n<onu-id>1</onu-id>\n</notification>\n<notification>\n<onu-id>2</onu-id>\n</notification>"

/-- Models `ET.fromstring` on the well-formed records of `logContent`
(anything else, in particular the malformed record, raises). -/
def fromstringRecords (s : String) : Except ETParseError Xml :=
  if s = "<notification>\n<onu-id>1</onu-id>\n</notification>" then
    .ok (.mk "notification" none (.cons (.mk "onu-id" (some "1") .nil) .nil))
  else if s = "<notification>\n<onu-id>2</onu-id>\n</notification>" then
    .ok (.mk "notification" none (.cons (.mk "onu-id" (some "2") .nil) .nil))
  else .error .parseError

/-- C9 witness: the theorem applied to the concrete log content with a
malformed record, filtering for ONU 1. -/
theorem c9_witness :
    get_latest_netconf_records fromstringRecords logContent 10 (some "1") =
      pyLastN 10 ((assembleRecords logContent).filter
        (fun r => onuMatches fromstringRecords r "1")) ∧
    ∀ r ∈ get_latest_netconf_records fromstringRecords logContent 10 (some "1"),
      ∃ root, fromstringRecords r = .ok root :=
  c9_filtered_read_skips_malformed fromstringRecords logContent 10 "1"
    (by decide)

end Epon
